import Mathlib

/-!
Shallow embedding of the influxdb `pkger` service (src/pkger/service.go):
the Apply/Rollback coordinator, the per-kind applier builders, the rollback
handlers and the dry-run differ.  Machine-level details (contexts, goroutines,
zap logging) are modelled by explicit data: port services become environments
of functions returning `Except String`/`Option String`, logging becomes a
collected list of messages, and every port interaction is recorded in an
explicit trace of `PortCall`s so that purity and ordering properties can be
stated.
-/

namespace Pkger

/-- influxdb.ID, modelled as a natural number. -/
abbrev ID := Nat

/-- influxdb.BucketUpdate: the two fields service.go ever sets
(`Description`, `RetentionPeriod`). -/
structure BucketUpdate where
  Description : String
  RetentionPeriod : Nat
deriving DecidableEq, Repr

/-- influxdb.LabelUpdate: the single field service.go ever sets. -/
structure LabelUpdate where
  Properties : List (String × String)
deriving DecidableEq, Repr

/-- influxdb.VariableUpdate, restricted to the fields service.go sets. -/
structure VariableUpdate where
  Description : String
  Arguments : String
deriving DecidableEq, Repr

/-- influxdb.LabelMapping as built in applyLabelMappings. -/
structure LabelMapping where
  LabelID : ID
  ResourceID : ID
  ResourceType : String
deriving DecidableEq, Repr

/-- influxdb.Bucket as returned by the bucket service port. -/
structure InfluxBucket where
  id : ID
  name : String
  Description : String
  RetentionPeriod : Nat
deriving DecidableEq, Repr

/-- influxdb.Label as returned by the label service port. -/
structure InfluxLabel where
  id : ID
  name : String
  Properties : List (String × String)
deriving DecidableEq, Repr

/-- influxdb.Variable as returned by the variable service port. -/
structure InfluxVariable where
  id : ID
  name : String
  Description : String
  Arguments : String
deriving DecidableEq, Repr

/-- influxdb.NotificationEndpoint (the platform-side record) restricted to the
identifying fields the core reads: id, name, and a representative payload of
the remaining endpoint fields (description/url/status collapsed into one
comparable field). -/
structure InfluxEndpoint where
  id : ID
  name : String
  fields : String
deriving DecidableEq, Repr

/-- One label↔resource mapping recorded on a package label by `setMapping`. -/
structure RecordedMapping where
  resType : String
  resID : ID
  resName : String
  exists_ : Bool
deriving DecidableEq, Repr

/-- Modelled from the spec: the package-side bucket record of pkg.go (absent
from src/).  Carries `Name()`, the updatable fields, the mutable `id`,
`OrgID`, and the `existing` slot the differ fills. -/
structure bucket where
  name : String
  Description : String
  /-- `b.RetentionRules.RP()` collapsed to the resulting period. -/
  RetentionRules : Nat
  OrgID : ID := 0
  id : ID := 0
  existing : Option InfluxBucket := none
  /-- names of the labels associated with this bucket in the package. -/
  labels : List String := []
deriving DecidableEq, Repr

/-- Modelled from the spec: `bucket.ID()` — the matched platform ID when
`existing` is set, otherwise the ID recorded at create time. -/
def bucket.ID' (b : bucket) : ID :=
  match b.existing with
  | some e => e.id
  | none => b.id

/-- Modelled from the spec: `bucket.shouldApply()` returns false when the
bucket already exists identically (no updatable field differs). -/
def bucket.shouldApply (b : bucket) : Bool :=
  match b.existing with
  | none => true
  | some e => b.Description ≠ e.Description || b.RetentionRules ≠ e.RetentionPeriod

/-- Modelled from the spec: the package-side label record of pkg.go.
`mappings` is what `setMapping` accumulates during the dry run. -/
structure label where
  name : String
  properties : List (String × String)
  OrgID : ID := 0
  id : ID := 0
  existing : Option InfluxLabel := none
  mappings : List RecordedMapping := []
deriving DecidableEq, Repr

/-- Modelled from the spec: `label.ID()`. -/
def label.ID' (l : label) : ID :=
  match l.existing with
  | some e => e.id
  | none => l.id

/-- Modelled from the spec: `label.shouldApply()` — false when the label
already exists identically. -/
def label.shouldApply (l : label) : Bool :=
  match l.existing with
  | none => true
  | some e => l.properties ≠ e.Properties

/-- Modelled from the spec: the package-side variable record of pkg.go. -/
structure variable' where
  name : String
  Description : String
  /-- `v.influxVarArgs()` collapsed to its result. -/
  Arguments : String
  OrgID : ID := 0
  id : ID := 0
  existing : Option InfluxVariable := none
  /-- names of the labels associated with this variable in the package. -/
  labels : List String := []
deriving DecidableEq, Repr

/-- Modelled from the spec: `variable.ID()`. -/
def variable'.ID' (v : variable') : ID :=
  match v.existing with
  | some e => e.id
  | none => v.id

/-- Modelled from the spec: `variable.shouldApply()`. -/
def variable'.shouldApply (v : variable') : Bool :=
  match v.existing with
  | none => true
  | some e => v.Description ≠ e.Description || v.Arguments ≠ e.Arguments

/-- Modelled from the spec: the package-side dashboard record (create-only,
no existing slot is read by the applier; the differ emits it as new). -/
structure dashboard where
  name : String
  Description : String
  /-- chart definitions, opaque to the coordinator. -/
  Charts : List String
  OrgID : ID := 0
  id : ID := 0
  /-- names of the labels associated with this dashboard in the package. -/
  labels : List String := []
deriving DecidableEq, Repr

/-- Modelled from the spec: the package-side telegraf record (create-only). -/
structure telegraf where
  name : String
  config : String
  OrgID : ID := 0
  id : ID := 0
  /-- names of the labels associated with this telegraf config in the package. -/
  labels : List String := []
deriving DecidableEq, Repr

/-- Modelled from the spec: the package-side notification endpoint record. -/
structure notificationEndpoint where
  name : String
  fields : String
  OrgID : ID := 0
  id : ID := 0
  existing : Option InfluxEndpoint := none
  /-- names of the labels associated with this endpoint in the package. -/
  labels : List String := []
deriving DecidableEq, Repr

/-- Modelled from the spec: `notificationEndpoint.ID()`. -/
def notificationEndpoint.ID' (e : notificationEndpoint) : ID :=
  match e.existing with
  | some ex => ex.id
  | none => e.id

/-- Modelled from the spec: `e.summarize().NotificationEndpoint` — the
platform endpoint built from the package record's declared fields. -/
def notificationEndpoint.summarize (e : notificationEndpoint) : InfluxEndpoint :=
  { id := e.id, name := e.name, fields := e.fields }

/-- SummaryLabelMapping (pkg.go): one desired label↔resource edge with its
dry-run `exists` verdict. -/
structure SummaryLabelMapping where
  exists_ : Bool
  LabelID : ID
  ResourceID : ID
  ResourceType : String
  LabelName : String
  ResourceName : String
deriving DecidableEq, Repr

/-- applyErrBody from service.go. -/
structure applyErrBody where
  name : String
  msg : String
deriving DecidableEq, Repr

/-- Every port interaction service.go performs, reads and mutations. -/
inductive PortCall where
  | findBucketByName (orgID : ID) (name : String)
  | findLabels (orgID : ID) (name : String)
  | findNotificationEndpoints (orgID : ID)
  | findVariables (orgID : ID)
  | findResourceLabels (resID : ID) (resType : String)
  | getSecretKeys (orgID : ID)
  | createBucket (name : String)
  | updateBucket (id : ID) (upd : BucketUpdate)
  | deleteBucket (id : ID)
  | createLabel (name : String)
  | updateLabel (id : ID) (upd : LabelUpdate)
  | deleteLabel (id : ID)
  | createDashboard (name : String)
  | deleteDashboard (id : ID)
  | createVariable (name : String)
  | updateVariable (id : ID) (upd : VariableUpdate)
  | deleteVariable (id : ID)
  | createNotificationEndpoint (e : InfluxEndpoint) (userID : ID)
  | updateNotificationEndpoint (id : ID) (payload : InfluxEndpoint) (userID : ID)
  | deleteNotificationEndpoint (id : ID)
  | createTelegrafConfig (name : String) (userID : ID)
  | deleteTelegrafConfig (id : ID)
  | createLabelMapping (m : LabelMapping)
  | deleteLabelMapping (m : LabelMapping)
deriving DecidableEq, Repr

/-- Whether a port call is a mutation (Create/Update/Delete) as opposed to a
read (Find/Get). -/
def PortCall.isMutating : PortCall → Bool
  | .findBucketByName _ _ => false
  | .findLabels _ _ => false
  | .findNotificationEndpoints _ => false
  | .findVariables _ => false
  | .findResourceLabels _ _ => false
  | .getSecretKeys _ => false
  | _ => true

/-- The environment of rollback-time port outcomes: what each delete/update
issued during a rollback returns (`none` = success, `some msg` = failure). -/
structure RollbackSvcEnv where
  deleteBucket : ID → Option String
  updateBucket : ID → BucketUpdate → Option String
  deleteLabel : ID → Option String
  updateLabel : ID → LabelUpdate → Option String
  deleteVariable : ID → Option String
  updateVariable : ID → VariableUpdate → Option String
  deleteNotificationEndpoint : ID → Option String
  updateNotificationEndpoint : ID → InfluxEndpoint → ID → Option String
  deleteDashboard : ID → Option String
  deleteTelegrafConfig : ID → Option String
  deleteLabelMapping : LabelMapping → Option String

/-- A fully-succeeding rollback environment (used for concrete runs). -/
def RollbackSvcEnv.allOK : RollbackSvcEnv where
  deleteBucket _ := none
  updateBucket _ _ := none
  deleteLabel _ := none
  updateLabel _ _ := none
  deleteVariable _ := none
  updateVariable _ _ := none
  deleteNotificationEndpoint _ := none
  updateNotificationEndpoint _ _ _ := none
  deleteDashboard _ := none
  deleteTelegrafConfig _ := none
  deleteLabelMapping _ := none

/-- Service.rollbackBuckets (service.go:977-1004).  For each bucket in the
rollback list: if `existing` is nil, delete it; otherwise issue an update
whose payload is built from `b.Description` and `b.RetentionRules.RP()` —
the package record's own fields.  Returns the port calls issued, the ids
collected into `errs`, and the formatted error when any failed. -/
def Service.rollbackBuckets (env : RollbackSvcEnv) (buckets : List bucket) :
    List PortCall × List ID × Option String :=
  let step := fun (b : bucket) =>
    match b.existing with
    | none => (PortCall.deleteBucket b.ID', env.deleteBucket b.ID')
    | some _ =>
      let upd : BucketUpdate := { Description := b.Description, RetentionPeriod := b.RetentionRules }
      (PortCall.updateBucket b.ID' upd, env.updateBucket b.ID' upd)
  let calls := buckets.map fun b => (step b).1
  let errs := (buckets.filter fun b => ((step b).2).isSome).map bucket.ID'
  (calls, errs, if errs.isEmpty then none else some "unable to delete bucket")

/-- Service.rollbackLabels (service.go:1157-1181).  Deletes created labels;
for updated labels issues an update whose payload is `l.existing.Properties`
— the snapshot captured during dry run. -/
def Service.rollbackLabels (env : RollbackSvcEnv) (labels : List label) :
    List PortCall × List ID × Option String :=
  let step := fun (l : label) =>
    match l.existing with
    | none => (PortCall.deleteLabel l.ID', env.deleteLabel l.ID')
    | some ex =>
      let upd : LabelUpdate := { Properties := ex.Properties }
      (PortCall.updateLabel l.ID' upd, env.updateLabel l.ID' upd)
  let calls := labels.map fun l => (step l).1
  let errs := (labels.filter fun l => ((step l).2).isSome).map label.ID'
  (calls, errs, if errs.isEmpty then none else some "unable to delete label")

/-- Service.rollbackVariables (service.go:1392-1417).  Deletes created
variables; for updated variables issues an update built from
`v.existing.Description` and `v.existing.Arguments`. -/
def Service.rollbackVariables (env : RollbackSvcEnv) (vars : List variable') :
    List PortCall × List ID × Option String :=
  let step := fun (v : variable') =>
    match v.existing with
    | none => (PortCall.deleteVariable v.ID', env.deleteVariable v.ID')
    | some ex =>
      let upd : VariableUpdate := { Description := ex.Description, Arguments := ex.Arguments }
      (PortCall.updateVariable v.ID' upd, env.updateVariable v.ID' upd)
  let calls := vars.map fun v => (step v).1
  let errs := (vars.filter fun v => ((step v).2).isSome).map variable'.ID'
  (calls, errs, if errs.isEmpty then none else some "unable to delete variable")

/-- Service.rollbackNotificationEndpoints (service.go:1281-1303).  Deletes
created endpoints; for updated endpoints re-issues an update carrying the
`existing` snapshot. -/
def Service.rollbackNotificationEndpoints (env : RollbackSvcEnv)
    (endpoints : List notificationEndpoint) : List PortCall × List ID × Option String :=
  let step := fun (e : notificationEndpoint) =>
    match e.existing with
    | none => (PortCall.deleteNotificationEndpoint e.ID', env.deleteNotificationEndpoint e.ID')
    | some ex => (PortCall.updateNotificationEndpoint e.ID' ex 0,
        env.updateNotificationEndpoint e.ID' ex 0)
  let calls := endpoints.map fun e => (step e).1
  let errs := (endpoints.filter fun e => ((step e).2).isSome).map notificationEndpoint.ID'
  (calls, errs, if errs.isEmpty then none else some "unable to delete")

/-- Service.rollbackLabelMappings (service.go:1498-1513): delete-only. -/
def Service.rollbackLabelMappings (env : RollbackSvcEnv) (mappings : List LabelMapping) :
    List PortCall × Option String :=
  let calls := mappings.map PortCall.deleteLabelMapping
  let errs := mappings.filter fun m => (env.deleteLabelMapping m).isSome
  (calls, if errs.isEmpty then none else some "unable to delete label")

/-- The environment of apply-time port outcomes.  Create calls return the
platform-assigned ID on success; update calls return the updated record. -/
structure ApplySvcEnv where
  createBucket : bucket → Except String ID
  updateBucket : ID → BucketUpdate → Except String InfluxBucket
  createLabel : label → Except String ID
  updateLabel : ID → LabelUpdate → Except String InfluxLabel
  createDashboard : dashboard → Except String ID
  createVariable : variable' → Except String ID
  updateVariable : ID → VariableUpdate → Except String InfluxVariable
  createNotificationEndpoint : InfluxEndpoint → ID → Except String ID
  updateNotificationEndpoint : ID → InfluxEndpoint → ID → Except String InfluxEndpoint
  createTelegrafConfig : telegraf → ID → Except String ID
  createLabelMapping : LabelMapping → Option String

/-- An apply-time environment in which every port call succeeds, assigning a
fixed fresh ID to every created resource. -/
def ApplySvcEnv.allOK (freshID : ID) : ApplySvcEnv where
  createBucket _ := .ok freshID
  updateBucket i u := .ok
    { id := i, name := "", Description := u.Description,
      RetentionPeriod := u.RetentionPeriod }
  createLabel _ := .ok freshID
  updateLabel i u := .ok { id := i, name := "", Properties := u.Properties }
  createDashboard _ := .ok freshID
  createVariable _ := .ok freshID
  updateVariable i u := .ok
    { id := i, name := "", Description := u.Description,
      Arguments := u.Arguments }
  createNotificationEndpoint e _ := .ok e.id
  updateNotificationEndpoint _ p _ := .ok p
  createTelegrafConfig _ _ := .ok freshID
  createLabelMapping _ := none

/-- Service.applyBucket (service.go:1006-1031): update when `existing` is
non-nil, create otherwise.  Returns the outcome and the traced port call
tagged with whether the port succeeded. -/
def Service.applyBucket (env : ApplySvcEnv) (b : bucket) :
    Except String InfluxBucket × List (PortCall × Bool) :=
  let rp := b.RetentionRules
  match b.existing with
  | some _ =>
    let upd : BucketUpdate := { Description := b.Description, RetentionPeriod := rp }
    match env.updateBucket b.ID' upd with
    | .ok ib => (.ok ib, [(.updateBucket b.ID' upd, true)])
    | .error m => (.error m, [(.updateBucket b.ID' upd, false)])
  | none =>
    match env.createBucket b with
    | .ok newID =>
      (.ok { id := newID, name := b.name, Description := b.Description, RetentionPeriod := rp },
        [(.createBucket b.name, true)])
    | .error m => (.error m, [(.createBucket b.name, false)])

/-- Service.applyLabel (service.go:1183-1201). -/
def Service.applyLabel (env : ApplySvcEnv) (l : label) :
    Except String InfluxLabel × List (PortCall × Bool) :=
  match l.existing with
  | some _ =>
    let upd : LabelUpdate := { Properties := l.properties }
    match env.updateLabel l.ID' upd with
    | .ok il => (.ok il, [(.updateLabel l.ID' upd, true)])
    | .error m => (.error m, [(.updateLabel l.ID' upd, false)])
  | none =>
    match env.createLabel l with
    | .ok newID => (.ok { id := newID, name := l.name, Properties := l.properties },
        [(.createLabel l.name, true)])
    | .error m => (.error m, [(.createLabel l.name, false)])

/-- Service.applyVariable (service.go:1419-1443). -/
def Service.applyVariable (env : ApplySvcEnv) (v : variable') :
    Except String InfluxVariable × List (PortCall × Bool) :=
  match v.existing with
  | some _ =>
    let upd : VariableUpdate := { Description := v.Description, Arguments := v.Arguments }
    match env.updateVariable v.ID' upd with
    | .ok iv => (.ok iv, [(.updateVariable v.ID' upd, true)])
    | .error m => (.error m, [(.updateVariable v.ID' upd, false)])
  | none =>
    match env.createVariable v with
    | .ok newID =>
      (.ok { id := newID, name := v.name, Description := v.Description, Arguments := v.Arguments },
        [(.createVariable v.name, true)])
    | .error m => (.error m, [(.createVariable v.name, false)])

/-- Service.applyDashboard (service.go:1077-1091): create-only. -/
def Service.applyDashboard (env : ApplySvcEnv) (d : dashboard) :
    Except String ID × List (PortCall × Bool) :=
  match env.createDashboard d with
  | .ok newID => (.ok newID, [(.createDashboard d.name, true)])
  | .error m => (.error m, [(.createDashboard d.name, false)])

/-- Service.applyNotificationEndpoint (service.go:1260-1279): when `existing`
is non-nil the update call's payload is `e.existing` — the snapshot captured
during dry run — not the package record's declared fields; the create branch
passes `e.summarize().NotificationEndpoint`. -/
def Service.applyNotificationEndpoint (env : ApplySvcEnv) (e : notificationEndpoint)
    (userID : ID) : Except String InfluxEndpoint × List (PortCall × Bool) :=
  match e.existing with
  | some ex =>
    match env.updateNotificationEndpoint e.ID' ex userID with
    | .ok upd => (.ok upd, [(.updateNotificationEndpoint e.ID' ex userID, true)])
    | .error m => (.error m, [(.updateNotificationEndpoint e.ID' ex userID, false)])
  | none =>
    let actual := e.summarize
    match env.createNotificationEndpoint actual userID with
    | .ok newID => (.ok { actual with id := newID },
        [(.createNotificationEndpoint actual userID, true)])
    | .error m => (.error m, [(.createNotificationEndpoint actual userID, false)])

/-- The observable effect of one invocation of an applier's `creater.fn`:
the error body handed to the error stream (if any), the item appended to the
applier's rollback list (if any), and the traced port calls. -/
structure CreateStep (ρ : Type) where
  errBody : Option applyErrBody
  rollbackAdd : Option ρ
  calls : List (PortCall × Bool)
deriving DecidableEq, Repr

/-- The body of applyBuckets' createFn (service.go:939-963) for item `b`:
stamp OrgID, skip when `shouldApply` is false, call the port, and on success
record the new ID and append to the rollback list. -/
def Service.applyBucketsStep (env : ApplySvcEnv) (orgID : ID) (b : bucket) :
    CreateStep bucket :=
  let b := { b with OrgID := orgID }
  if !b.shouldApply then ⟨none, none, []⟩
  else
    match Service.applyBucket env b with
    | (.error m, calls) => ⟨some ⟨b.name, m⟩, none, calls⟩
    | (.ok ib, calls) => ⟨none, some { b with id := ib.id }, calls⟩

/-- The body of applyLabels' createFn (service.go:1119-1143). -/
def Service.applyLabelsStep (env : ApplySvcEnv) (orgID : ID) (l : label) :
    CreateStep label :=
  let l := { l with OrgID := orgID }
  if !l.shouldApply then ⟨none, none, []⟩
  else
    match Service.applyLabel env l with
    | (.error m, calls) => ⟨some ⟨l.name, m⟩, none, calls⟩
    | (.ok il, calls) => ⟨none, some { l with id := il.id }, calls⟩

/-- The body of applyVariables' createFn (service.go:1356-1378). -/
def Service.applyVariablesStep (env : ApplySvcEnv) (orgID : ID) (v : variable') :
    CreateStep variable' :=
  let v := { v with OrgID := orgID }
  if !v.shouldApply then ⟨none, none, []⟩
  else
    match Service.applyVariable env v with
    | (.error m, calls) => ⟨some ⟨v.name, m⟩, none, calls⟩
    | (.ok iv, calls) => ⟨none, some { v with id := iv.id }, calls⟩

/-- The body of applyDashboards' createFn (service.go:1039-1058): no
shouldApply predicate, create-only. -/
def Service.applyDashboardsStep (env : ApplySvcEnv) (orgID : ID) (d : dashboard) :
    CreateStep dashboard :=
  let d := { d with OrgID := orgID }
  match Service.applyDashboard env d with
  | (.error m, calls) => ⟨some ⟨d.name, m⟩, none, calls⟩
  | (.ok newID, calls) => ⟨none, some { d with id := newID }, calls⟩

/-- The body of applyNotificationEndpoints' createFn (service.go:1209-1243). -/
def Service.applyNotificationEndpointsStep (env : ApplySvcEnv) (orgID userID : ID)
    (e : notificationEndpoint) : CreateStep notificationEndpoint :=
  let e := { e with OrgID := orgID }
  match Service.applyNotificationEndpoint env e userID with
  | (.error m, calls) => ⟨some ⟨e.name, m⟩, none, calls⟩
  | (.ok upd, calls) => ⟨none, some { e with id := upd.id }, calls⟩

/-- The body of applyTelegrafs' createFn (service.go:1311-1331): create-only. -/
def Service.applyTelegrafsStep (env : ApplySvcEnv) (orgID userID : ID) (t : telegraf) :
    CreateStep telegraf :=
  let t := { t with OrgID := orgID }
  match env.createTelegrafConfig t userID with
  | .error m => ⟨some ⟨t.name, m⟩, none, [(.createTelegrafConfig t.name userID, false)]⟩
  | .ok newID => ⟨none, some { t with id := newID }, [(.createTelegrafConfig t.name userID, true)]⟩

/-- The body of applyLabelMappings' createFn (service.go:1451-1483): a mapping
whose dry run found it already existing is skipped — no port call, no
rollback entry; only `IsNew` mappings are created. -/
def Service.applyLabelMappingsStep (env : ApplySvcEnv) (mapping : SummaryLabelMapping) :
    CreateStep LabelMapping :=
  if mapping.exists_ then ⟨none, none, []⟩
  else
    let m : LabelMapping :=
      { LabelID := mapping.LabelID, ResourceID := mapping.ResourceID,
        ResourceType := mapping.ResourceType }
    match env.createLabelMapping m with
    | some errMsg =>
      ⟨some ⟨mapping.ResourceType ++ ":" ++ toString mapping.ResourceID ++ ":" ++
        toString mapping.LabelID, errMsg⟩, none, [(.createLabelMapping m, false)]⟩
    | none => ⟨none, some m, [(.createLabelMapping m, true)]⟩

/-- What `pkg.Validate()` reports: a parse-only error (carried through the
dry run) or any other validation error (which aborts it). -/
inductive ValidationErr where
  | parse (msg : String)
  | other (msg : String)
deriving DecidableEq, Repr

/-- IsParseErr from the pkger package. -/
def IsParseErr : ValidationErr → Bool
  | .parse _ => true
  | .other _ => false

/-- Modelled from the spec: the parsed package of pkg.go (absent from src/):
typed resource records, the two flags the core reads, what `Validate()`
returns, and the secret reference keys. -/
structure Pkg where
  isParsed : Bool := true
  isVerified : Bool := false
  validateErr : Option ValidationErr := none
  secrets : List String := []
  mBuckets : List bucket := []
  mLabels : List label := []
  mDashboards : List dashboard := []
  mNotificationEndpoints : List notificationEndpoint := []
  mTelegrafs : List telegraf := []
  mVariables : List variable' := []
deriving DecidableEq, Repr

/-- Modelled from the spec: `pkg.labelMappings()` — the flat list of desired
(resource, label) edges, read off the mappings `setMapping` recorded on each
package label during the dry run. -/
def Pkg.labelMappings (p : Pkg) : List SummaryLabelMapping :=
  p.mLabels.flatMap fun l => l.mappings.map fun m =>
    { exists_ := m.exists_, LabelID := l.ID', ResourceID := m.resID,
      ResourceType := m.resType, LabelName := l.name, ResourceName := m.resName }

/-- Modelled from the spec: DiffBucket — IsNew, the desired state and the
existing state (nullable). -/
structure DiffBucket where
  IsNew : Bool
  Name : String
  Description : String
  RetentionPeriod : Nat
  existing : Option InfluxBucket
deriving DecidableEq, Repr

/-- newDiffBucket. -/
def newDiffBucket (b : bucket) (e : Option InfluxBucket) : DiffBucket :=
  { IsNew := e.isNone, Name := b.name, Description := b.Description,
    RetentionPeriod := b.RetentionRules, existing := e }

/-- Modelled from the spec: DiffLabel. -/
structure DiffLabel where
  IsNew : Bool
  Name : String
  Properties : List (String × String)
  existing : Option InfluxLabel
deriving DecidableEq, Repr

/-- newDiffLabel. -/
def newDiffLabel (l : label) (e : Option InfluxLabel) : DiffLabel :=
  { IsNew := e.isNone, Name := l.name, Properties := l.properties, existing := e }

/-- Modelled from the spec: DiffNotificationEndpoint. -/
structure DiffNotificationEndpoint where
  IsNew : Bool
  Name : String
  fields : String
  existing : Option InfluxEndpoint
deriving DecidableEq, Repr

/-- newDiffNotificationEndpoint. -/
def newDiffNotificationEndpoint (e : notificationEndpoint) (ex : Option InfluxEndpoint) :
    DiffNotificationEndpoint :=
  { IsNew := ex.isNone, Name := e.name, fields := e.fields, existing := ex }

/-- Modelled from the spec: DiffVariable. -/
structure DiffVariable where
  IsNew : Bool
  Name : String
  Description : String
  Arguments : String
  existing : Option InfluxVariable
deriving DecidableEq, Repr

/-- newDiffVariable. -/
def newDiffVariable (v : variable') (e : Option InfluxVariable) : DiffVariable :=
  { IsNew := e.isNone, Name := v.name, Description := v.Description,
    Arguments := v.Arguments, existing := e }

/-- Modelled from the spec: DiffDashboard (always new). -/
structure DiffDashboard where
  Name : String
  Description : String
deriving DecidableEq, Repr

/-- newDiffDashboard. -/
def newDiffDashboard (d : dashboard) : DiffDashboard :=
  { Name := d.name, Description := d.Description }

/-- Modelled from the spec: DiffTelegraf (always new). -/
structure DiffTelegraf where
  Name : String
deriving DecidableEq, Repr

/-- newDiffTelegraf. -/
def newDiffTelegraf (t : telegraf) : DiffTelegraf :=
  { Name := t.name }

/-- DiffLabelMapping, with exactly the fields service.go:800-807 fills. -/
structure DiffLabelMapping where
  IsNew : Bool
  ResType : String
  ResID : ID
  ResName : String
  LabelID : ID
  LabelName : String
deriving DecidableEq, Repr

/-- The Diff, with the seven sections service.go:572-580 assembles. -/
structure Diff where
  Buckets : List DiffBucket
  Dashboards : List DiffDashboard
  Labels : List DiffLabel
  LabelMappings : List DiffLabelMapping
  NotificationEndpoints : List DiffNotificationEndpoint
  Telegrafs : List DiffTelegraf
  Variables : List DiffVariable
deriving DecidableEq, Repr

/-- Diff{}: the zero diff returned on the dry run's abort paths. -/
def Diff.empty : Diff := ⟨[], [], [], [], [], [], []⟩

/-- Insert into a string-keyed association list, replacing in place: the model
of a Go map write (`m[k] = v`). -/
def upsert (k : String) (v : α) : List (String × α) → List (String × α)
  | [] => [(k, v)]
  | (k', w) :: rest => if k' = k then (k, v) :: rest else (k', w) :: upsert k v rest

/-- Insert `a` in front of the first element `b` with `le a b`: one step of
the insertion sort that models `sort.Slice`. -/
def orderedInsertB (le : α → α → Bool) (a : α) : List α → List α
  | [] => [a]
  | b :: l => if le a b then a :: b :: l else b :: orderedInsertB le a l

/-- Deterministic model of `sort.Slice xs less`: insertion sort along
`le a b := !(less b a)`, the non-strict companion of the comparator. -/
def insertionSortB (le : α → α → Bool) : List α → List α
  | [] => []
  | a :: l => orderedInsertB le a (insertionSortB le l)

/-- The bucket diff comparator of service.go:605-607. -/
def diffBucketLess (a b : DiffBucket) : Bool := decide (a.Name < b.Name)

/-- The label diff comparator of service.go:645-647. -/
def diffLabelLess (a b : DiffLabel) : Bool := decide (a.Name < b.Name)

/-- The endpoint diff comparator of service.go:683-685. -/
def diffNotificationEndpointLess (a b : DiffNotificationEndpoint) : Bool :=
  decide (a.Name < b.Name)

/-- The variable diff comparator of service.go:761-763. -/
def diffVariableLess (a b : DiffVariable) : Bool := decide (a.Name < b.Name)

/-- The label-mapping comparator of service.go:816-831: ResType ASC, then
ResName ASC, then LabelName ASC. -/
def diffLabelMappingLess (n m : DiffLabelMapping) : Bool :=
  if decide (n.ResType < m.ResType) then true
  else if decide (n.ResType > m.ResType) then false
  else if decide (n.ResName < m.ResName) then true
  else if decide (n.ResName > m.ResName) then false
  else decide (n.LabelName < m.LabelName)

/-- The environment of dry-run port results (reads only; `Except.error`
models a non-nil error from the port). -/
structure DryRunSvcEnv where
  findBucketByName : ID → String → Except String InfluxBucket
  findLabels : ID → String → Except String (List InfluxLabel)
  findNotificationEndpoints : ID → Except String (List InfluxEndpoint)
  getSecretKeys : ID → Except String (List String)
  findVariables : ID → Except String (List InfluxVariable)
  findResourceLabels : ID → String → Except String (List InfluxLabel)

/-- A dry-run environment in which nothing exists on the platform. -/
def DryRunSvcEnv.empty : DryRunSvcEnv where
  findBucketByName _ _ := .error "not found"
  findLabels _ _ := .ok []
  findNotificationEndpoints _ := .ok []
  getSecretKeys _ := .ok []
  findVariables _ := .ok []
  findResourceLabels _ _ := .ok []

/-- What the dry run can return as its error. -/
inductive DryRunErr where
  | validation (e : ValidationErr)
  | secretsMissing (keys : List String)
  | portErr (msg : String)
deriving DecidableEq, Repr

/-- Service.dryRunSecrets (service.go:690-715): no call when the package
references no secrets; otherwise one GetSecretKeys read, and an aggregated
sorted SecretsMissing error when any referenced key is absent. -/
def Service.dryRunSecrets (env : DryRunSvcEnv) (orgID : ID) (secrets : List String) :
    List PortCall × Option DryRunErr :=
  if secrets.isEmpty then ([], none)
  else
    match env.getSecretKeys orgID with
    | .error m => ([.getSecretKeys orgID], some (.portErr m))
    | .ok existingSecrets =>
      let missing := (secrets.filter fun s => !existingSecrets.contains s).dedup
      if missing.isEmpty then ([.getSecretKeys orgID], none)
      else ([.getSecretKeys orgID],
        some (.secretsMissing (insertionSortB (fun a b => decide (a ≤ b)) missing)))

/-- The loop body of Service.dryRunBuckets (service.go:584-599): query each
package bucket by (orgID, name); on success attach the match to `existing`
and record an update diff, otherwise record a create diff.  Returns the Go
map of diffs keyed by name, the mutated bucket records, and the read trace. -/
def dryRunBucketsLoop (env : DryRunSvcEnv) (orgID : ID) (m : List (String × DiffBucket)) :
    List bucket → List (String × DiffBucket) × List bucket × List PortCall
  | [] => (m, [], [])
  | b :: rest =>
    match env.findBucketByName orgID b.name with
    | .ok e =>
      let b' := { b with existing := some e }
      let (mf, bs, cs) := dryRunBucketsLoop env orgID (upsert b.name (newDiffBucket b' (some e)) m) rest
      (mf, b' :: bs, .findBucketByName orgID b.name :: cs)
    | .error _ =>
      let (mf, bs, cs) := dryRunBucketsLoop env orgID (upsert b.name (newDiffBucket b none) m) rest
      (mf, b :: bs, .findBucketByName orgID b.name :: cs)

/-- Service.dryRunBuckets (service.go:584-610): loop, then sort the collected
diffs by Name ascending. -/
def Service.dryRunBuckets (env : DryRunSvcEnv) (orgID : ID) (bkts : List bucket) :
    List bucket × List DiffBucket × List PortCall :=
  let (m, bs, cs) := dryRunBucketsLoop env orgID [] bkts
  (bs, insertionSortB (fun a b => !diffBucketLess b a) (m.map (·.2)), cs)

/-- The loop body of Service.dryRunLabels (service.go:620-639). -/
def dryRunLabelsLoop (env : DryRunSvcEnv) (orgID : ID) (m : List (String × DiffLabel)) :
    List label → List (String × DiffLabel) × List label × List PortCall
  | [] => (m, [], [])
  | l :: rest =>
    match env.findLabels orgID l.name with
    | .ok (e :: _) =>
      let l' := { l with existing := some e }
      let (mf, ls, cs) := dryRunLabelsLoop env orgID (upsert l.name (newDiffLabel l' (some e)) m) rest
      (mf, l' :: ls, .findLabels orgID l.name :: cs)
    | _ =>
      let (mf, ls, cs) := dryRunLabelsLoop env orgID (upsert l.name (newDiffLabel l none) m) rest
      (mf, l :: ls, .findLabels orgID l.name :: cs)

/-- Service.dryRunLabels (service.go:620-650). -/
def Service.dryRunLabels (env : DryRunSvcEnv) (orgID : ID) (labels : List label) :
    List label × List DiffLabel × List PortCall :=
  let (m, ls, cs) := dryRunLabelsLoop env orgID [] labels
  (ls, insertionSortB (fun a b => !diffLabelLess b a) (m.map (·.2)), cs)

/-- The last platform endpoint carrying a given name: the result of the Go
map built at service.go:660-664 (later entries overwrite earlier ones). -/
def lookupEndpointByName (es : List InfluxEndpoint) (name : String) : Option InfluxEndpoint :=
  es.foldl (fun acc e => if e.name = name then some e else acc) none

/-- The matching loop of Service.dryRunNotificationEndpoints
(service.go:666-677). -/
def dryRunNotificationEndpointsLoop (mExisting : List InfluxEndpoint)
    (m : List (String × DiffNotificationEndpoint)) :
    List notificationEndpoint → List (String × DiffNotificationEndpoint) × List notificationEndpoint
  | [] => (m, [])
  | e :: rest =>
    match lookupEndpointByName mExisting e.name with
    | some ex =>
      let e' := { e with existing := some ex }
      let (mf, es) := dryRunNotificationEndpointsLoop mExisting
        (upsert e.name (newDiffNotificationEndpoint e' (some ex)) m) rest
      (mf, e' :: es)
    | none =>
      let (mf, es) := dryRunNotificationEndpointsLoop mExisting
        (upsert e.name (newDiffNotificationEndpoint e none) m) rest
      (mf, e :: es)

/-- Service.dryRunNotificationEndpoints (service.go:652-688): one
FindNotificationEndpoints read for the whole org (an error aborts), then
name matching and a sort by Name. -/
def Service.dryRunNotificationEndpoints (env : DryRunSvcEnv) (orgID : ID)
    (endpoints : List notificationEndpoint) :
    Except String (List notificationEndpoint × List DiffNotificationEndpoint) × List PortCall :=
  match env.findNotificationEndpoints orgID with
  | .error m => (.error m, [.findNotificationEndpoints orgID])
  | .ok existingEndpoints =>
    let (m, es) := dryRunNotificationEndpointsLoop existingEndpoints [] endpoints
    (.ok (es, insertionSortB (fun a b => !diffNotificationEndpointLess b a) (m.map (·.2))),
      [.findNotificationEndpoints orgID])

/-- The loop body of Service.dryRunVariables (service.go:729-755): one
FindVariables read per package variable; the first result whose name matches
becomes `existing`, any error or absent name falls through to a create diff. -/
def dryRunVariablesLoop (env : DryRunSvcEnv) (orgID : ID) (m : List (String × DiffVariable)) :
    List variable' → List (String × DiffVariable) × List variable' × List PortCall
  | [] => (m, [], [])
  | v :: rest =>
    match env.findVariables orgID with
    | .ok existingVars =>
      match existingVars.find? (fun ev => ev.name = v.name) with
      | some ev =>
        let v' := { v with existing := some ev }
        let (mf, vs, cs) := dryRunVariablesLoop env orgID (upsert v.name (newDiffVariable v' (some ev)) m) rest
        (mf, v' :: vs, .findVariables orgID :: cs)
      | none =>
        let (mf, vs, cs) := dryRunVariablesLoop env orgID (upsert v.name (newDiffVariable v none) m) rest
        (mf, v :: vs, .findVariables orgID :: cs)
    | .error _ =>
      let (mf, vs, cs) := dryRunVariablesLoop env orgID (upsert v.name (newDiffVariable v none) m) rest
      (mf, v :: vs, .findVariables orgID :: cs)

/-- Service.dryRunVariables (service.go:725-766). -/
def Service.dryRunVariables (env : DryRunSvcEnv) (orgID : ID) (vars : List variable') :
    List variable' × List DiffVariable × List PortCall :=
  let (m, vs, cs) := dryRunVariablesLoop env orgID [] vars
  (vs, insertionSortB (fun a b => !diffVariableLess b a) (m.map (·.2)), cs)

/-- Service.dryRunDashboards (service.go:612-618): one create diff per
package dashboard, in package order — no sort is applied. -/
def Service.dryRunDashboards (dashes : List dashboard) : List DiffDashboard :=
  dashes.map newDiffDashboard

/-- Service.dryRunTelegraf (service.go:717-723): create diffs in package
order — no sort is applied. -/
def Service.dryRunTelegraf (teles : List telegraf) : List DiffTelegraf :=
  teles.map newDiffTelegraf

/-- The labelAssociater view (service.go:776-783) of one package resource:
what the mapper hands to dryRunResourceLabelMapping. -/
structure LabelAssociation where
  resID : ID
  resName : String
  resType : String
  exists_ : Bool
  labels : List String
deriving DecidableEq, Repr

/-- The mappers of service.go:786-792, in their fixed order: buckets,
dashboards, notification endpoints, telegrafs, variables.  Dashboards and
telegrafs are create-only, so their `Exists()` is false. -/
def Pkg.labelAssociations (p : Pkg) : List LabelAssociation :=
  p.mBuckets.map (fun b => ⟨b.ID', b.name, "buckets", b.existing.isSome, b.labels⟩)
  ++ p.mDashboards.map (fun d => ⟨d.id, d.name, "dashboards", false, d.labels⟩)
  ++ p.mNotificationEndpoints.map
      (fun e => ⟨e.ID', e.name, "notificationEndpoints", e.existing.isSome, e.labels⟩)
  ++ p.mTelegrafs.map (fun t => ⟨t.id, t.name, "telegrafs", false, t.labels⟩)
  ++ p.mVariables.map (fun v => ⟨v.ID', v.name, "variables", v.existing.isSome, v.labels⟩)

/-- Modelled from the spec: `label.setMapping(la, exists)` applied through
`pkg.mLabels[labelName]` — append the association to the named package
label's recorded mappings; a name with no package label is a no-op. -/
def setMappingOn (labels : List label) (labelName : String) (m : RecordedMapping) :
    List label :=
  labels.map fun l => if l.name = labelName then { l with mappings := l.mappings ++ [m] } else l

/-- labelSlcToMap (service.go:1707-1713) composed with `la.Labels()`: resolve
the association's label names against the package labels, keyed by name. -/
def resolveLabels (labels : List label) (names : List String) : List label :=
  names.filterMap fun n => labels.find? (fun l => l.name = n)

/-- The state threaded through dryRunLabelMappings: the package labels (which
`setMapping` mutates), the emitted diffs, and the read trace. -/
structure MappingState where
  labels : List label
  diffs : List DiffLabelMapping
  calls : List PortCall
deriving DecidableEq, Repr

/-- The mappingFn closure of service.go:798-808: record the mapping on the
package label and append a DiffLabelMapping. -/
def labelMappingDiffStep (st : MappingState) (la : LabelAssociation) (labelID : ID)
    (labelName : String) (isNew : Bool) : MappingState :=
  { st with
    labels := setMappingOn st.labels labelName ⟨la.resType, la.resID, la.resName, !isNew⟩,
    diffs := st.diffs ++ [⟨isNew, la.resType, la.resID, la.resName, labelID, labelName⟩] }

/-- Service.dryRunResourceLabelMapping (service.go:836-869).  A resource that
does not yet exist marks every associated package label IsNew without any
port call; an existing resource reads its current labels (an error aborts),
marks those also declared in the package as not-new, and the rest as new. -/
def Service.dryRunResourceLabelMapping (env : DryRunSvcEnv) (st : MappingState)
    (la : LabelAssociation) : MappingState × Option String :=
  if !la.exists_ then
    ((resolveLabels st.labels la.labels).foldl
      (fun st l => labelMappingDiffStep st la l.ID' l.name true) st, none)
  else
    match env.findResourceLabels la.resID la.resType with
    | .error m => ({ st with calls := st.calls ++ [.findResourceLabels la.resID la.resType] }, some m)
    | .ok existingLabels =>
      let st := { st with calls := st.calls ++ [.findResourceLabels la.resID la.resType] }
      let pkgLabels := resolveLabels st.labels la.labels.dedup
      let st := existingLabels.foldl (fun st l => labelMappingDiffStep st la l.id l.name false) st
      let remaining := pkgLabels.filter fun l => !(existingLabels.any (fun e => e.name = l.name))
      (remaining.foldl (fun st l => labelMappingDiffStep st la l.ID' l.name true) st, none)

/-- The resource loop of Service.dryRunLabelMappings (service.go:794-813):
stop at the first port error. -/
def dryRunLabelMappingsLoop (env : DryRunSvcEnv) (st : MappingState) :
    List LabelAssociation → MappingState × Option String
  | [] => (st, none)
  | la :: rest =>
    match Service.dryRunResourceLabelMapping env st la with
    | (st', some m) => (st', some m)
    | (st', none) => dryRunLabelMappingsLoop env st' rest

/-- Service.dryRunLabelMappings (service.go:785-834): walk the mappers, then
sort the diffs by (ResType, ResName, LabelName) ascending. -/
def Service.dryRunLabelMappings (env : DryRunSvcEnv) (pkg : Pkg) :
    MappingState × Option String :=
  match dryRunLabelMappingsLoop env ⟨pkg.mLabels, [], []⟩ pkg.labelAssociations with
  | (st, some m) => (st, some m)
  | (st, none) =>
    ({ st with diffs := insertionSortB (fun a b => !diffLabelMappingLess b a) st.diffs }, none)

/-- The result of a dry run: the (possibly mutated) package, the diff, the
returned error, and the trace of port calls. -/
structure DryRunResult where
  pkg : Pkg
  diff : Diff
  err : Option DryRunErr
  calls : List PortCall
deriving DecidableEq, Repr

/-- The body of Service.DryRun after validation (service.go:538-581):
secrets precondition, the per-kind differs in order, then `isVerified`. -/
def Service.dryRunBody (env : DryRunSvcEnv) (orgID : ID) (pkg : Pkg)
    (parseErr : Option ValidationErr) : DryRunResult :=
  let s0 := Service.dryRunSecrets env orgID pkg.secrets
  match s0.2 with
  | some err => ⟨pkg, Diff.empty, some err, s0.1⟩
  | none =>
    let rb := Service.dryRunBuckets env orgID pkg.mBuckets
    let pkg1 := { pkg with mBuckets := rb.1 }
    let rl := Service.dryRunLabels env orgID pkg1.mLabels
    let pkg2 := { pkg1 with mLabels := rl.1 }
    let re := Service.dryRunNotificationEndpoints env orgID pkg2.mNotificationEndpoints
    match re.1 with
    | .error m =>
      ⟨pkg2, Diff.empty, some (.portErr m), s0.1 ++ rb.2.2 ++ rl.2.2 ++ re.2⟩
    | .ok found =>
      let pkg3 := { pkg2 with mNotificationEndpoints := found.1 }
      let rv := Service.dryRunVariables env orgID pkg3.mVariables
      let pkg4 := { pkg3 with mVariables := rv.1 }
      let rm := Service.dryRunLabelMappings env pkg4
      match rm.2 with
      | some m =>
        ⟨{ pkg4 with mLabels := rm.1.labels }, Diff.empty, some (.portErr m),
          s0.1 ++ rb.2.2 ++ rl.2.2 ++ re.2 ++ rv.2.2 ++ rm.1.calls⟩
      | none =>
        let pkg5 := { pkg4 with mLabels := rm.1.labels, isVerified := true }
        ⟨pkg5,
          { Buckets := rb.2.1,
            Dashboards := Service.dryRunDashboards pkg5.mDashboards,
            Labels := rl.2.1,
            LabelMappings := rm.1.diffs,
            NotificationEndpoints := found.2,
            Telegrafs := Service.dryRunTelegraf pkg5.mTelegrafs,
            Variables := rv.2.1 },
          parseErr.map .validation,
          s0.1 ++ rb.2.2 ++ rl.2.2 ++ re.2 ++ rv.2.2 ++ rm.1.calls⟩

/-- Service.DryRun (service.go:524-582).  An unparsed package is validated
first: a non-parse error aborts, a parse-only error is carried through
alongside a still-valid diff. -/
def Service.DryRun (env : DryRunSvcEnv) (orgID _userID : ID) (pkg : Pkg) : DryRunResult :=
  if pkg.isParsed then Service.dryRunBody env orgID pkg none
  else
    match pkg.validateErr with
    | some (.other m) => ⟨pkg, Diff.empty, some (.validation (.other m)), []⟩
    | some (.parse m) => Service.dryRunBody env orgID pkg (some (.parse m))
    | none => Service.dryRunBody env orgID pkg none

/-- One message pushed into the error stream (service.go:1625-1628). -/
structure errMsg where
  resource : String
  err : applyErrBody
deriving DecidableEq, Repr

/-- An applier as the coordinator consumes it: the rollbacker's resource tag
and the creater (entry count and per-index outcome).  The rollbacker's own
effect is resolved at rollback time from the rollback environment. -/
structure applier where
  resource : String
  entries : Nat
  fn : Nat → Option applyErrBody

/-- The coordinator state the group runner threads: the recorded rollbackers
(by resource tag, in insertion order) and every `creater.fn` invocation. -/
structure CoordState where
  rollbacks : List String
  invocations : List (String × Nat)
deriving DecidableEq, Repr

/-- One applier's turn inside runTilEnd (service.go:1584-1607): record its
rollbacker, invoke `creater.fn` on every index, and push each returned error
body into the stream. -/
def runApplier (st : CoordState) (msgs : List errMsg) (a : applier) :
    CoordState × List errMsg :=
  let idxs := List.range a.entries
  ({ rollbacks := st.rollbacks ++ [a.resource],
     invocations := st.invocations ++ idxs.map fun i => (a.resource, i) },
   msgs ++ idxs.filterMap fun i => (a.fn i).map fun e => ⟨a.resource, e⟩)

/-- rollbackCoordinator.runTilEnd (service.go:1580-1611): run every item of
every applier in the group, then close the error stream — `none` when no
message arrived, the aggregated messages otherwise. -/
def rollbackCoordinator.runTilEnd (st : CoordState) (appliers : List applier) :
    CoordState × Option (List errMsg) :=
  let (st, msgs) := appliers.foldl (fun p a => runApplier p.1 p.2 a) (st, ([] : List errMsg))
  (st, if msgs.isEmpty then none else some msgs)

/-- The group loop of Service.Apply (service.go:917-928): groups run
serially; a group's non-nil aggregated error stops execution. -/
def runGroups (st : CoordState) : List (List applier) → CoordState × Option (List errMsg)
  | [] => (st, none)
  | g :: gs =>
    match rollbackCoordinator.runTilEnd st g with
    | (st', none) => runGroups st' gs
    | (st', some msgs) => (st', some msgs)

/-- What Apply can return as its error. -/
inductive ApplyErr where
  | validation (e : ValidationErr)
  | dryRun (e : DryRunErr)
  | aggregated (msgs : List errMsg)
deriving DecidableEq, Repr

/-- rollbackCoordinator.rollback (service.go:1613-1623): nothing when the
primary error is nil; otherwise walk the recorded rollbackers in list order,
invoking each one and logging — never returning — its failure.  Yields the
invocation sequence and the logged messages. -/
def rollbackCoordinator.rollback (rbEnv : String → Option String)
    (rollbacks : List String) (err : Option ApplyErr) : List String × List String :=
  match err with
  | none => ([], [])
  | some _ =>
    (rollbacks, rollbacks.filterMap fun r => (rbEnv r).map fun _ => "failed to delete " ++ r)

/-- Service.applyBuckets (service.go:933-975) as the coordinator sees it. -/
def Service.applyBuckets (env : ApplySvcEnv) (orgID : ID) (buckets : List bucket) : applier :=
  { resource := "bucket", entries := buckets.length,
    fn := fun i => match buckets[i]? with
      | some b => (Service.applyBucketsStep env orgID b).errBody
      | none => none }

/-- Service.applyLabels (service.go:1113-1155). -/
def Service.applyLabels (env : ApplySvcEnv) (orgID : ID) (labels : List label) : applier :=
  { resource := "label", entries := labels.length,
    fn := fun i => match labels[i]? with
      | some l => (Service.applyLabelsStep env orgID l).errBody
      | none => none }

/-- Service.applyVariables (service.go:1350-1390). -/
def Service.applyVariables (env : ApplySvcEnv) (orgID : ID) (vars : List variable') : applier :=
  { resource := "variable", entries := vars.length,
    fn := fun i => match vars[i]? with
      | some v => (Service.applyVariablesStep env orgID v).errBody
      | none => none }

/-- Service.applyDashboards (service.go:1033-1075). -/
def Service.applyDashboards (env : ApplySvcEnv) (orgID : ID) (dashes : List dashboard) : applier :=
  { resource := "dashboard", entries := dashes.length,
    fn := fun i => match dashes[i]? with
      | some d => (Service.applyDashboardsStep env orgID d).errBody
      | none => none }

/-- Service.applyNotificationEndpoints (service.go:1203-1258). -/
def Service.applyNotificationEndpoints (env : ApplySvcEnv) (orgID userID : ID)
    (endpoints : List notificationEndpoint) : applier :=
  { resource := "notification_endpoints", entries := endpoints.length,
    fn := fun i => match endpoints[i]? with
      | some e => (Service.applyNotificationEndpointsStep env orgID userID e).errBody
      | none => none }

/-- Service.applyTelegrafs (service.go:1305-1348). -/
def Service.applyTelegrafs (env : ApplySvcEnv) (orgID userID : ID) (teles : List telegraf) : applier :=
  { resource := "telegrafs", entries := teles.length,
    fn := fun i => match teles[i]? with
      | some t => (Service.applyTelegrafsStep env orgID userID t).errBody
      | none => none }

/-- Service.applyLabelMappings (service.go:1445-1496). -/
def Service.applyLabelMappings (env : ApplySvcEnv) (mappings : List SummaryLabelMapping) : applier :=
  { resource := "label_mapping", entries := mappings.length,
    fn := fun i => match mappings[i]? with
      | some m => (Service.applyLabelMappingsStep env m).errBody
      | none => none }

/-- The applier groups exactly as Service.Apply builds them
(service.go:900-915 and 925): labels; then variables, buckets, dashboards,
notification endpoints, telegrafs; then label mappings. -/
def Service.applyGroups (env : ApplySvcEnv) (orgID userID : ID) (pkg : Pkg) :
    List (List applier) :=
  [ [Service.applyLabels env orgID pkg.mLabels],
    [Service.applyVariables env orgID pkg.mVariables,
     Service.applyBuckets env orgID pkg.mBuckets,
     Service.applyDashboards env orgID pkg.mDashboards,
     Service.applyNotificationEndpoints env orgID userID pkg.mNotificationEndpoints,
     Service.applyTelegrafs env orgID userID pkg.mTelegrafs],
    [Service.applyLabelMappings env pkg.labelMappings] ]

/-- Everything observable about one Apply call: the create invocations, the
rollbackers the coordinator recorded, the returned error, the rollback
invocations and the rollback errors that were logged. -/
structure ApplyOutcome where
  invocations : List (String × Nat)
  recordedRollbacks : List String
  result : Option ApplyErr
  rollbackRun : List String
  rollbackLogged : List String
deriving DecidableEq, Repr

/-- The outcome of an Apply that returned before the coordinator was armed. -/
def ApplyOutcome.early (e : ApplyErr) : ApplyOutcome :=
  { invocations := [], recordedRollbacks := [], result := some e,
    rollbackRun := [], rollbackLogged := [] }

/-- The package state Service.Apply hands to the coordinator: the dry run is
run first unless the package is already verified (service.go:881-886). -/
def Service.applyPrep (denv : DryRunSvcEnv) (orgID userID : ID) (pkg : Pkg) : DryRunResult :=
  if pkg.isVerified then ⟨pkg, Diff.empty, none, []⟩
  else Service.DryRun denv orgID userID pkg

/-- The coordinator run inside Service.Apply: the three applier groups driven
group by group. -/
def Service.applyRun (env : ApplySvcEnv) (orgID userID : ID) (pkg : Pkg) :
    CoordState × Option (List errMsg) :=
  runGroups ⟨[], []⟩ (Service.applyGroups env orgID userID pkg)

/-- Service.Apply (service.go:874-931): validate an unparsed package, dry-run
an unverified one, then drive the applier groups through the coordinator with
the rollback deferred on the returned error. -/
def Service.Apply (denv : DryRunSvcEnv) (env : ApplySvcEnv) (rbEnv : String → Option String)
    (orgID userID : ID) (pkg : Pkg) : ApplyOutcome :=
  if ¬pkg.isParsed ∧ pkg.validateErr.isSome then
    ApplyOutcome.early (.validation (pkg.validateErr.getD (.parse "")))
  else
    let dr := Service.applyPrep denv orgID userID pkg
    match dr.err with
    | some e => ApplyOutcome.early (.dryRun e)
    | none =>
      let run := Service.applyRun env orgID userID dr.pkg
      let result : Option ApplyErr := run.2.map .aggregated
      let rb := rollbackCoordinator.rollback rbEnv run.1.rollbacks result
      { invocations := run.1.invocations, recordedRollbacks := run.1.rollbacks,
        result := result, rollbackRun := rb.1, rollbackLogged := rb.2 }

/-- The resource kinds of the pkger package. -/
inductive Kind where
  | Bucket
  | Dashboard
  | Label
  | NotificationEndpoint
  | Package
  | Telegraf
  | Variable
  | Unknown
deriving DecidableEq, Repr

/-- A package-level Resource as CreatePkg's sort sees it: its kind and name. -/
structure Resource where
  kind : Kind
  name : String
deriving DecidableEq, Repr

/-- The kindPriorities map of service.go:239-244.  A kind absent from the map
— NotificationEndpoint, Telegraf, Package, Unknown — reads Go's zero value 0. -/
def kindPriorities : Kind → Nat
  | .Label => 1
  | .Bucket => 2
  | .Variable => 3
  | .Dashboard => 4
  | _ => 0

/-- The comparator of the sort.Slice at service.go:246-255: equal kinds
compare by name, different kinds by mapped priority. -/
def createPkgLess (a b : Resource) : Bool :=
  if a.kind = b.kind then decide (a.name < b.name)
  else decide (kindPriorities a.kind < kindPriorities b.kind)

/-- The final resource sort of Service.CreatePkg, modelled as insertion sort
along the comparator's non-strict companion. -/
def Service.createPkgSortResources (rs : List Resource) : List Resource :=
  insertionSortB (fun a b => !createPkgLess b a) rs

/-! ## Generic facts about the insertion-sort model of `sort.Slice` -/

theorem mem_orderedInsertB (le : α → α → Bool) (a x : α) :
    ∀ l : List α, x ∈ orderedInsertB le a l ↔ x = a ∨ x ∈ l := by
  intro l
  induction l with
  | nil => simp [orderedInsertB]
  | cons b bs ih =>
    by_cases h : le a b = true
    · simp [orderedInsertB, h]
    · simp only [orderedInsertB, if_neg h, List.mem_cons, ih]
      tauto

theorem pairwise_orderedInsertB (le : α → α → Bool)
    (htot : ∀ a b, le a b = true ∨ le b a = true)
    (htrans : ∀ a b c, le a b = true → le b c = true → le a c = true)
    (a : α) : ∀ l : List α, List.Pairwise (fun x y => le x y = true) l →
      List.Pairwise (fun x y => le x y = true) (orderedInsertB le a l) := by
  intro l
  induction l with
  | nil => intro _; simp [orderedInsertB]
  | cons b bs ih =>
    intro h
    rcases List.pairwise_cons.mp h with ⟨hb, hbs⟩
    by_cases hab : le a b = true
    · rw [orderedInsertB, if_pos hab]
      refine List.pairwise_cons.mpr ⟨?_, h⟩
      intro x hx
      rcases List.mem_cons.mp hx with rfl | hx
      · exact hab
      · exact htrans a b x hab (hb x hx)
    · rw [orderedInsertB, if_neg hab]
      refine List.pairwise_cons.mpr ⟨?_, ih hbs⟩
      intro x hx
      rcases (mem_orderedInsertB le a x bs).mp hx with hxa | hx
      · rw [hxa]
        rcases htot a b with h' | h'
        · exact absurd h' hab
        · exact h'
      · exact hb x hx

theorem pairwise_insertionSortB (le : α → α → Bool)
    (htot : ∀ a b, le a b = true ∨ le b a = true)
    (htrans : ∀ a b c, le a b = true → le b c = true → le a c = true) :
    ∀ l : List α, List.Pairwise (fun x y => le x y = true) (insertionSortB le l) := by
  intro l
  induction l with
  | nil => simp [insertionSortB]
  | cons a l ih => exact pairwise_orderedInsertB le htot htrans a _ ih

theorem chain'_orderedInsertB (le : α → α → Bool)
    (htot : ∀ a b, le a b = true ∨ le b a = true) (a : α) :
    ∀ l : List α, List.Chain' (fun x y => le x y = true) l →
      List.Chain' (fun x y => le x y = true) (orderedInsertB le a l) := by
  intro l
  induction l with
  | nil => intro _; simp [orderedInsertB]
  | cons b bs ih =>
    intro h
    by_cases hab : le a b = true
    · rw [orderedInsertB, if_pos hab]
      exact List.chain'_cons.mpr ⟨hab, h⟩
    · rw [orderedInsertB, if_neg hab]
      have hba : le b a = true := by
        rcases htot a b with h' | h'
        · exact absurd h' hab
        · exact h'
      cases bs with
      | nil => simpa [orderedInsertB] using hba
      | cons c cs =>
        rcases List.chain'_cons.mp h with ⟨hbc, htail⟩
        by_cases hac : le a c = true
        · rw [orderedInsertB, if_pos hac]
          exact List.chain'_cons.mpr ⟨hba, List.chain'_cons.mpr ⟨hac, htail⟩⟩
        · have := ih htail
          rw [orderedInsertB, if_neg hac] at this ⊢
          exact List.chain'_cons.mpr ⟨hbc, this⟩

theorem chain'_insertionSortB (le : α → α → Bool)
    (htot : ∀ a b, le a b = true ∨ le b a = true) :
    ∀ l : List α, List.Chain' (fun x y => le x y = true) (insertionSortB le l) := by
  intro l
  induction l with
  | nil => simp [insertionSortB]
  | cons a l ih => exact chain'_orderedInsertB le htot a _ ih

/-! ## Order facts for the diff comparators -/

theorem bnot_decide_lt {x y : String} : (!decide (y < x)) = true ↔ x ≤ y := by
  simp [not_lt]

theorem nameLe_total (f : α → String) (a b : α) :
    (!decide (f b < f a)) = true ∨ (!decide (f a < f b)) = true := by
  rcases le_total (f a) (f b) with h | h
  · exact Or.inl (bnot_decide_lt.mpr h)
  · exact Or.inr (bnot_decide_lt.mpr h)

theorem nameLe_trans (f : α → String) (a b c : α)
    (h1 : (!decide (f b < f a)) = true) (h2 : (!decide (f c < f b)) = true) :
    (!decide (f c < f a)) = true :=
  bnot_decide_lt.mpr (le_trans (bnot_decide_lt.mp h1) (bnot_decide_lt.mp h2))

/-- The non-strict companion of the label-mapping comparator, spelled out:
lexicographic ≤ on (ResType, ResName, LabelName). -/
def mappingKeyLe (a b : DiffLabelMapping) : Prop :=
  a.ResType < b.ResType ∨ (a.ResType = b.ResType ∧ (a.ResName < b.ResName ∨
    (a.ResName = b.ResName ∧ a.LabelName ≤ b.LabelName)))

theorem diffLabelMappingLe_iff (a b : DiffLabelMapping) :
    (!diffLabelMappingLess b a) = true ↔ mappingKeyLe a b := by
  unfold diffLabelMappingLess mappingKeyLe
  rcases lt_trichotomy a.ResType b.ResType with h1 | h1 | h1
  · have h1' : ¬b.ResType < a.ResType := lt_asymm h1
    simp [h1, h1', gt_iff_lt]
  · rw [h1]
    rcases lt_trichotomy a.ResName b.ResName with h2 | h2 | h2
    · have h2' : ¬b.ResName < a.ResName := lt_asymm h2
      simp [h2, h2', gt_iff_lt]
    · rw [h2]
      simp [gt_iff_lt, not_lt]
    · have h2' : ¬a.ResName < b.ResName := lt_asymm h2
      simp [h2, h2', gt_iff_lt, ne_of_gt h2]
  · have h1' : ¬a.ResType < b.ResType := lt_asymm h1
    simp [h1, h1', gt_iff_lt, ne_of_gt h1]

theorem mappingKeyLe_total (a b : DiffLabelMapping) : mappingKeyLe a b ∨ mappingKeyLe b a := by
  unfold mappingKeyLe
  rcases lt_trichotomy a.ResType b.ResType with h1 | h1 | h1
  · exact Or.inl (Or.inl h1)
  · rcases lt_trichotomy a.ResName b.ResName with h2 | h2 | h2
    · exact Or.inl (Or.inr ⟨h1, Or.inl h2⟩)
    · rcases le_total a.LabelName b.LabelName with h3 | h3
      · exact Or.inl (Or.inr ⟨h1, Or.inr ⟨h2, h3⟩⟩)
      · exact Or.inr (Or.inr ⟨h1.symm, Or.inr ⟨h2.symm, h3⟩⟩)
    · exact Or.inr (Or.inr ⟨h1.symm, Or.inl h2⟩)
  · exact Or.inr (Or.inl h1)

theorem mappingKeyLe_trans (a b c : DiffLabelMapping)
    (h1 : mappingKeyLe a b) (h2 : mappingKeyLe b c) : mappingKeyLe a c := by
  unfold mappingKeyLe at *
  rcases h1 with h1 | ⟨e1, h1⟩
  · rcases h2 with h2 | ⟨e2, _⟩
    · exact Or.inl (lt_trans h1 h2)
    · exact Or.inl (e2 ▸ h1)
  · rcases h2 with h2 | ⟨e2, h2⟩
    · exact Or.inl (e1 ▸ h2)
    · refine Or.inr ⟨e1.trans e2, ?_⟩
      rcases h1 with h1 | ⟨f1, h1⟩
      · rcases h2 with h2 | ⟨f2, _⟩
        · exact Or.inl (lt_trans h1 h2)
        · exact Or.inl (f2 ▸ h1)
      · rcases h2 with h2 | ⟨f2, h2⟩
        · exact Or.inl (f1 ▸ h2)
        · exact Or.inr ⟨f1.trans f2, le_trans h1 h2⟩

/-- The comparator of CreatePkg's sort is asymmetric, so its non-strict
companion is total (what a correct `sort.Slice` run needs). -/
theorem createPkgLe_total (a b : Resource) :
    (!createPkgLess b a) = true ∨ (!createPkgLess a b) = true := by
  unfold createPkgLess
  by_cases hk : a.kind = b.kind
  · rw [hk]
    simp only [if_pos rfl]
    rcases le_total a.name b.name with h | h
    · exact Or.inl (by simpa [not_lt] using h)
    · exact Or.inr (by simpa [not_lt] using h)
  · rw [if_neg hk, if_neg (fun h => hk h.symm)]
    rcases le_total (kindPriorities a.kind) (kindPriorities b.kind) with h | h
    · exact Or.inl (by simpa [not_lt] using h)
    · exact Or.inr (by simpa [not_lt] using h)

/-! ## Coordinator bookkeeping lemmas -/

/-- All `creater.fn` invocations a group performs, in model order. -/
def groupInvs (g : List applier) : List (String × Nat) :=
  g.flatMap fun a => (List.range a.entries).map fun i => (a.resource, i)

/-- The error-stream messages a group produces. -/
def groupMsgs (g : List applier) : List errMsg :=
  g.flatMap fun a => (List.range a.entries).filterMap fun i => (a.fn i).map fun e => ⟨a.resource, e⟩

theorem runTilEnd_foldl (g : List applier) : ∀ p : CoordState × List errMsg,
    g.foldl (fun q a => runApplier q.1 q.2 a) p
      = (⟨p.1.rollbacks ++ g.map applier.resource, p.1.invocations ++ groupInvs g⟩,
         p.2 ++ groupMsgs g) := by
  induction g with
  | nil => intro p; simp [groupInvs, groupMsgs]
  | cons a g ih =>
    intro p
    rw [List.foldl_cons, ih]
    simp [runApplier, groupInvs, groupMsgs, List.append_assoc]

theorem runTilEnd_eq (st : CoordState) (g : List applier) :
    rollbackCoordinator.runTilEnd st g
      = (⟨st.rollbacks ++ g.map applier.resource, st.invocations ++ groupInvs g⟩,
         if (groupMsgs g).isEmpty then none else some (groupMsgs g)) := by
  unfold rollbackCoordinator.runTilEnd
  rw [runTilEnd_foldl]
  simp

/-- The index of the first group whose aggregated error is non-nil
(`gs.length` when every group succeeds). -/
def firstFailIdx (gs : List (List applier)) : Nat :=
  gs.findIdx fun g => !(groupMsgs g).isEmpty

theorem runGroups_eq (gs : List (List applier)) : ∀ st : CoordState,
    runGroups st gs
      = (⟨st.rollbacks ++ ((gs.take (firstFailIdx gs + 1)).flatMap fun g => g.map applier.resource),
          st.invocations ++ (gs.take (firstFailIdx gs + 1)).flatMap groupInvs⟩,
         (gs[firstFailIdx gs]?).map groupMsgs) := by
  induction gs with
  | nil => intro st; simp [runGroups, firstFailIdx]
  | cons g gs ih =>
    intro st
    rw [runGroups, runTilEnd_eq]
    by_cases h : (groupMsgs g).isEmpty
    · rw [if_pos h]
      have hidx : firstFailIdx (g :: gs) = firstFailIdx gs + 1 := by
        simp [firstFailIdx, List.findIdx_cons, h]
      show runGroups _ gs = _
      rw [ih]
      simp [hidx, List.append_assoc]
    · rw [if_neg h]
      have hidx : firstFailIdx (g :: gs) = 0 := by
        simp [firstFailIdx, List.findIdx_cons, h]
      show (_, some (groupMsgs g)) = _
      simp [hidx]

/-! ## Dry-run frame and purity lemmas -/

/-- Erase the binding the differ writes into a bucket record. -/
def bucket.clearExisting (b : bucket) : bucket := { b with existing := none }

/-- Erase the bindings the dry run writes into a label record: the matched
`existing` label and the mappings recorded by `setMapping`. -/
def label.clearBindings (l : label) : label := { l with existing := none, mappings := [] }

/-- Erase only the `existing` slot of a label record. -/
def label.clearExisting (l : label) : label := { l with existing := none }

/-- Erase the binding the differ writes into an endpoint record. -/
def notificationEndpoint.clearExisting (e : notificationEndpoint) : notificationEndpoint :=
  { e with existing := none }

/-- Erase the binding the differ writes into a variable record. -/
def variable'.clearExisting (v : variable') : variable' := { v with existing := none }

/-- Erase every dry-run state change from a package: the `existing` slots,
the recorded label mappings, and the `isVerified` flag. -/
def Pkg.clearBindings (p : Pkg) : Pkg :=
  { p with
      isVerified := false,
      mBuckets := p.mBuckets.map bucket.clearExisting,
      mLabels := p.mLabels.map label.clearBindings,
      mNotificationEndpoints := p.mNotificationEndpoints.map notificationEndpoint.clearExisting,
      mVariables := p.mVariables.map variable'.clearExisting }

/-- Erase only the state changes the specification names for the dry run: the
`existing` slots and the `isVerified` flag — not the recorded mappings. -/
def Pkg.clearExistingAndVerified (p : Pkg) : Pkg :=
  { p with
      isVerified := false,
      mBuckets := p.mBuckets.map bucket.clearExisting,
      mLabels := p.mLabels.map label.clearExisting,
      mNotificationEndpoints := p.mNotificationEndpoints.map notificationEndpoint.clearExisting,
      mVariables := p.mVariables.map variable'.clearExisting }

theorem dryRunBucketsLoop_frame (env : DryRunSvcEnv) (orgID : ID) :
    ∀ (bs : List bucket) (m : List (String × DiffBucket)),
      ((dryRunBucketsLoop env orgID m bs).2.1).map bucket.clearExisting
        = bs.map bucket.clearExisting := by
  intro bs
  induction bs with
  | nil => intro m; simp [dryRunBucketsLoop]
  | cons b rest ih =>
    intro m
    cases hf : env.findBucketByName orgID b.name with
    | ok e => simp [dryRunBucketsLoop, hf, bucket.clearExisting, ih]
    | error msg => simp [dryRunBucketsLoop, hf, bucket.clearExisting, ih]

theorem dryRunBucketsLoop_pure (env : DryRunSvcEnv) (orgID : ID) :
    ∀ (bs : List bucket) (m : List (String × DiffBucket)),
      ∀ c ∈ (dryRunBucketsLoop env orgID m bs).2.2, c.isMutating = false := by
  intro bs
  induction bs with
  | nil => intro m; simp [dryRunBucketsLoop]
  | cons b rest ih =>
    intro m c hc
    cases hf : env.findBucketByName orgID b.name with
    | ok e =>
      simp only [dryRunBucketsLoop, hf] at hc
      rcases List.mem_cons.mp hc with rfl | hc
      · rfl
      · exact ih _ c hc
    | error msg =>
      simp only [dryRunBucketsLoop, hf] at hc
      rcases List.mem_cons.mp hc with rfl | hc
      · rfl
      · exact ih _ c hc

theorem dryRunLabelsLoop_frame (env : DryRunSvcEnv) (orgID : ID) :
    ∀ (ls : List label) (m : List (String × DiffLabel)),
      ((dryRunLabelsLoop env orgID m ls).2.1).map label.clearBindings
        = ls.map label.clearBindings := by
  intro ls
  induction ls with
  | nil => intro m; simp [dryRunLabelsLoop]
  | cons l rest ih =>
    intro m
    cases hf : env.findLabels orgID l.name with
    | ok found =>
      cases found with
      | nil => simp [dryRunLabelsLoop, hf, label.clearBindings, ih]
      | cons e es => simp [dryRunLabelsLoop, hf, label.clearBindings, ih]
    | error msg => simp [dryRunLabelsLoop, hf, label.clearBindings, ih]

theorem dryRunLabelsLoop_pure (env : DryRunSvcEnv) (orgID : ID) :
    ∀ (ls : List label) (m : List (String × DiffLabel)),
      ∀ c ∈ (dryRunLabelsLoop env orgID m ls).2.2, c.isMutating = false := by
  intro ls
  induction ls with
  | nil => intro m; simp [dryRunLabelsLoop]
  | cons l rest ih =>
    intro m c hc
    cases hf : env.findLabels orgID l.name with
    | ok found =>
      cases found with
      | nil =>
        simp only [dryRunLabelsLoop, hf] at hc
        rcases List.mem_cons.mp hc with rfl | hc
        · rfl
        · exact ih _ c hc
      | cons e es =>
        simp only [dryRunLabelsLoop, hf] at hc
        rcases List.mem_cons.mp hc with rfl | hc
        · rfl
        · exact ih _ c hc
    | error msg =>
      simp only [dryRunLabelsLoop, hf] at hc
      rcases List.mem_cons.mp hc with rfl | hc
      · rfl
      · exact ih _ c hc

theorem dryRunNotificationEndpointsLoop_frame (mExisting : List InfluxEndpoint) :
    ∀ (es : List notificationEndpoint) (m : List (String × DiffNotificationEndpoint)),
      ((dryRunNotificationEndpointsLoop mExisting m es).2).map notificationEndpoint.clearExisting
        = es.map notificationEndpoint.clearExisting := by
  intro es
  induction es with
  | nil => intro m; simp [dryRunNotificationEndpointsLoop]
  | cons e rest ih =>
    intro m
    cases hf : lookupEndpointByName mExisting e.name with
    | some ex => simp [dryRunNotificationEndpointsLoop, hf, notificationEndpoint.clearExisting, ih]
    | none => simp [dryRunNotificationEndpointsLoop, hf, notificationEndpoint.clearExisting, ih]

theorem dryRunVariablesLoop_frame (env : DryRunSvcEnv) (orgID : ID) :
    ∀ (vs : List variable') (m : List (String × DiffVariable)),
      ((dryRunVariablesLoop env orgID m vs).2.1).map variable'.clearExisting
        = vs.map variable'.clearExisting := by
  intro vs
  induction vs with
  | nil => intro m; simp [dryRunVariablesLoop]
  | cons v rest ih =>
    intro m
    cases hf : env.findVariables orgID with
    | ok found =>
      cases hm : found.find? (fun ev => ev.name = v.name) with
      | some ev => simp [dryRunVariablesLoop, hf, hm, variable'.clearExisting, ih]
      | none => simp [dryRunVariablesLoop, hf, hm, variable'.clearExisting, ih]
    | error msg => simp [dryRunVariablesLoop, hf, variable'.clearExisting, ih]

theorem dryRunVariablesLoop_pure (env : DryRunSvcEnv) (orgID : ID) :
    ∀ (vs : List variable') (m : List (String × DiffVariable)),
      ∀ c ∈ (dryRunVariablesLoop env orgID m vs).2.2, c.isMutating = false := by
  intro vs
  induction vs with
  | nil => intro m; simp [dryRunVariablesLoop]
  | cons v rest ih =>
    intro m c hc
    cases hf : env.findVariables orgID with
    | ok found =>
      cases hm : found.find? (fun ev => ev.name = v.name) with
      | some ev =>
        simp only [dryRunVariablesLoop, hf, hm] at hc
        rcases List.mem_cons.mp hc with rfl | hc
        · rfl
        · exact ih _ c hc
      | none =>
        simp only [dryRunVariablesLoop, hf, hm] at hc
        rcases List.mem_cons.mp hc with rfl | hc
        · rfl
        · exact ih _ c hc
    | error msg =>
      simp only [dryRunVariablesLoop, hf] at hc
      rcases List.mem_cons.mp hc with rfl | hc
      · rfl
      · exact ih _ c hc

theorem setMappingOn_clear (ls : List label) (n : String) (m : RecordedMapping) :
    (setMappingOn ls n m).map label.clearBindings = ls.map label.clearBindings := by
  unfold setMappingOn
  rw [List.map_map]
  apply List.map_congr_left
  intro l _
  by_cases h : l.name = n <;> simp [h, label.clearBindings]

theorem foldl_labelMappingDiffStep_frame (la : LabelAssociation) (g1 : β → ID)
    (g2 : β → String) (bb : Bool) : ∀ (xs : List β) (st : MappingState),
      ((xs.foldl (fun st x => labelMappingDiffStep st la (g1 x) (g2 x) bb) st).labels.map
          label.clearBindings = st.labels.map label.clearBindings)
      ∧ (xs.foldl (fun st x => labelMappingDiffStep st la (g1 x) (g2 x) bb) st).calls
          = st.calls := by
  intro xs
  induction xs with
  | nil => intro st; exact ⟨rfl, rfl⟩
  | cons x xs ih =>
    intro st
    rw [List.foldl_cons]
    refine ⟨?_, ?_⟩
    · rw [(ih _).1]
      simp [labelMappingDiffStep, setMappingOn_clear]
    · rw [(ih _).2]
      simp [labelMappingDiffStep]

theorem dryRunResourceLabelMapping_frame (env : DryRunSvcEnv) (st : MappingState)
    (la : LabelAssociation) :
    ((Service.dryRunResourceLabelMapping env st la).1.labels).map label.clearBindings
      = st.labels.map label.clearBindings := by
  unfold Service.dryRunResourceLabelMapping
  by_cases h : la.exists_
  · simp only [h, Bool.not_true, Bool.false_eq_true, if_neg (by simp : ¬False)]
    cases hf : env.findResourceLabels la.resID la.resType with
    | error m => simp [hf]
    | ok existingLabels =>
      simp only [hf]
      rw [(foldl_labelMappingDiffStep_frame la _ _ true _ _).1,
        (foldl_labelMappingDiffStep_frame la _ _ false _ _).1]
  · rw [Bool.not_eq_true] at h
    simp only [h, Bool.not_false, eq_self_iff_true, if_true]
    rw [(foldl_labelMappingDiffStep_frame la _ _ true _ _).1]

theorem dryRunResourceLabelMapping_calls (env : DryRunSvcEnv) (st : MappingState)
    (la : LabelAssociation) :
    ∀ c ∈ (Service.dryRunResourceLabelMapping env st la).1.calls,
      c ∈ st.calls ∨ c.isMutating = false := by
  unfold Service.dryRunResourceLabelMapping
  by_cases h : la.exists_
  · simp only [h, Bool.not_true, Bool.false_eq_true, if_neg (by simp : ¬False)]
    cases hf : env.findResourceLabels la.resID la.resType with
    | error m =>
      simp only [hf]
      intro c hc
      rcases List.mem_append.mp hc with hc | hc
      · exact Or.inl hc
      · simp only [List.mem_singleton] at hc
        exact Or.inr (by rw [hc]; rfl)
    | ok existingLabels =>
      simp only [hf]
      intro c hc
      rw [(foldl_labelMappingDiffStep_frame la _ _ true _ _).2,
        (foldl_labelMappingDiffStep_frame la _ _ false _ _).2] at hc
      rcases List.mem_append.mp hc with hc | hc
      · exact Or.inl hc
      · simp only [List.mem_singleton] at hc
        exact Or.inr (by rw [hc]; rfl)
  · rw [Bool.not_eq_true] at h
    simp only [h, Bool.not_false, eq_self_iff_true, if_true]
    intro c hc
    rw [(foldl_labelMappingDiffStep_frame la _ _ true _ _).2] at hc
    exact Or.inl hc

theorem dryRunLabelMappingsLoop_frame (env : DryRunSvcEnv) :
    ∀ (las : List LabelAssociation) (st : MappingState),
      ((dryRunLabelMappingsLoop env st las).1.labels).map label.clearBindings
        = st.labels.map label.clearBindings := by
  intro las
  induction las with
  | nil => intro st; simp [dryRunLabelMappingsLoop]
  | cons la rest ih =>
    intro st
    rw [dryRunLabelMappingsLoop]
    cases hr : Service.dryRunResourceLabelMapping env st la with
    | mk st' o =>
      cases o with
      | some m =>
        simp only []
        have := dryRunResourceLabelMapping_frame env st la
        rw [hr] at this
        exact this
      | none =>
        simp only []
        rw [ih st']
        have := dryRunResourceLabelMapping_frame env st la
        rw [hr] at this
        exact this

theorem dryRunLabelMappingsLoop_calls (env : DryRunSvcEnv) :
    ∀ (las : List LabelAssociation) (st : MappingState),
      ∀ c ∈ (dryRunLabelMappingsLoop env st las).1.calls,
        c ∈ st.calls ∨ c.isMutating = false := by
  intro las
  induction las with
  | nil => intro st c hc; exact Or.inl (by simpa [dryRunLabelMappingsLoop] using hc)
  | cons la rest ih =>
    intro st c hc
    rw [dryRunLabelMappingsLoop] at hc
    rcases hr : Service.dryRunResourceLabelMapping env st la with ⟨st', o⟩
    rw [hr] at hc
    have hstep := dryRunResourceLabelMapping_calls env st la
    rw [hr] at hstep
    cases o with
    | some m => exact hstep c hc
    | none =>
      rcases ih st' c hc with hc' | hc'
      · exact hstep c hc'
      · exact Or.inr hc'

theorem dryRunLabelMappings_frame (env : DryRunSvcEnv) (pkg : Pkg) :
    ((Service.dryRunLabelMappings env pkg).1.labels).map label.clearBindings
      = pkg.mLabels.map label.clearBindings := by
  unfold Service.dryRunLabelMappings
  rcases hr : dryRunLabelMappingsLoop env ⟨pkg.mLabels, [], []⟩ pkg.labelAssociations
    with ⟨st, o⟩
  have := dryRunLabelMappingsLoop_frame env pkg.labelAssociations ⟨pkg.mLabels, [], []⟩
  rw [hr] at this
  cases o with
  | some m => simpa using this
  | none => simpa using this

theorem dryRunLabelMappings_calls (env : DryRunSvcEnv) (pkg : Pkg) :
    ∀ c ∈ (Service.dryRunLabelMappings env pkg).1.calls, c.isMutating = false := by
  unfold Service.dryRunLabelMappings
  rcases hr : dryRunLabelMappingsLoop env ⟨pkg.mLabels, [], []⟩ pkg.labelAssociations
    with ⟨st, o⟩
  have hcalls := dryRunLabelMappingsLoop_calls env pkg.labelAssociations ⟨pkg.mLabels, [], []⟩
  rw [hr] at hcalls
  intro c hc
  cases o with
  | some m =>
    rcases hcalls c (by simpa using hc) with h | h
    · simp at h
    · exact h
  | none =>
    rcases hcalls c (by simpa using hc) with h | h
    · simp at h
    · exact h

theorem pairwise_names_of_sortB (f : α → String) (l : List α) :
    List.Pairwise (fun a b => f a ≤ f b)
      (insertionSortB (fun a b => !decide (f b < f a)) l) :=
  (pairwise_insertionSortB (fun a b => !decide (f b < f a)) (nameLe_total f)
    (fun a b c => nameLe_trans f a b c) l).imp fun h => bnot_decide_lt.mp h

theorem pairwise_mappingKeyLe_sortB (l : List DiffLabelMapping) :
    List.Pairwise mappingKeyLe (insertionSortB (fun a b => !diffLabelMappingLess b a) l) := by
  have htot : ∀ a b : DiffLabelMapping,
      (!diffLabelMappingLess b a) = true ∨ (!diffLabelMappingLess a b) = true := by
    intro a b
    rcases mappingKeyLe_total a b with h | h
    · exact Or.inl ((diffLabelMappingLe_iff a b).mpr h)
    · exact Or.inr ((diffLabelMappingLe_iff b a).mpr h)
  have htrans : ∀ a b c : DiffLabelMapping, (!diffLabelMappingLess b a) = true →
      (!diffLabelMappingLess c b) = true → (!diffLabelMappingLess c a) = true := by
    intro a b c h1 h2
    exact (diffLabelMappingLe_iff a c).mpr
      (mappingKeyLe_trans a b c ((diffLabelMappingLe_iff a b).mp h1)
        ((diffLabelMappingLe_iff b c).mp h2))
  exact (pairwise_insertionSortB _ htot htrans l).imp fun h =>
    (diffLabelMappingLe_iff _ _).mp h

theorem dryRunBuckets_frame (env : DryRunSvcEnv) (orgID : ID) (bs : List bucket) :
    ((Service.dryRunBuckets env orgID bs).1).map bucket.clearExisting
      = bs.map bucket.clearExisting := by
  unfold Service.dryRunBuckets
  exact dryRunBucketsLoop_frame env orgID bs []

theorem dryRunBuckets_pure (env : DryRunSvcEnv) (orgID : ID) (bs : List bucket) :
    ∀ c ∈ (Service.dryRunBuckets env orgID bs).2.2, c.isMutating = false := by
  unfold Service.dryRunBuckets
  exact dryRunBucketsLoop_pure env orgID bs []

theorem dryRunBuckets_sorted (env : DryRunSvcEnv) (orgID : ID) (bs : List bucket) :
    List.Pairwise (fun a b => a.Name ≤ b.Name) (Service.dryRunBuckets env orgID bs).2.1 :=
  pairwise_names_of_sortB DiffBucket.Name _

theorem dryRunLabels_frame (env : DryRunSvcEnv) (orgID : ID) (ls : List label) :
    ((Service.dryRunLabels env orgID ls).1).map label.clearBindings
      = ls.map label.clearBindings := by
  unfold Service.dryRunLabels
  exact dryRunLabelsLoop_frame env orgID ls []

theorem dryRunLabels_pure (env : DryRunSvcEnv) (orgID : ID) (ls : List label) :
    ∀ c ∈ (Service.dryRunLabels env orgID ls).2.2, c.isMutating = false := by
  unfold Service.dryRunLabels
  exact dryRunLabelsLoop_pure env orgID ls []

theorem dryRunLabels_sorted (env : DryRunSvcEnv) (orgID : ID) (ls : List label) :
    List.Pairwise (fun a b => a.Name ≤ b.Name) (Service.dryRunLabels env orgID ls).2.1 :=
  pairwise_names_of_sortB DiffLabel.Name _

theorem dryRunNotificationEndpoints_pure (env : DryRunSvcEnv) (orgID : ID)
    (es : List notificationEndpoint) :
    ∀ c ∈ (Service.dryRunNotificationEndpoints env orgID es).2, c.isMutating = false := by
  unfold Service.dryRunNotificationEndpoints
  cases hf : env.findNotificationEndpoints orgID with
  | error m => intro c hc; simp only [List.mem_singleton] at hc; rw [hc]; rfl
  | ok found => intro c hc; simp only [List.mem_singleton] at hc; rw [hc]; rfl

theorem dryRunNotificationEndpoints_ok (env : DryRunSvcEnv) (orgID : ID)
    (es : List notificationEndpoint)
    (r : List notificationEndpoint × List DiffNotificationEndpoint)
    (h : (Service.dryRunNotificationEndpoints env orgID es).1 = .ok r) :
    r.1.map notificationEndpoint.clearExisting = es.map notificationEndpoint.clearExisting
    ∧ List.Pairwise (fun a b => a.Name ≤ b.Name) r.2 := by
  unfold Service.dryRunNotificationEndpoints at h
  cases hf : env.findNotificationEndpoints orgID with
  | error m => rw [hf] at h; exact absurd h (by simp)
  | ok found =>
    rw [hf] at h
    simp only [Except.ok.injEq] at h
    rw [← h]
    exact ⟨dryRunNotificationEndpointsLoop_frame found es [],
      pairwise_names_of_sortB DiffNotificationEndpoint.Name _⟩

theorem dryRunVariables_frame (env : DryRunSvcEnv) (orgID : ID) (vs : List variable') :
    ((Service.dryRunVariables env orgID vs).1).map variable'.clearExisting
      = vs.map variable'.clearExisting := by
  unfold Service.dryRunVariables
  exact dryRunVariablesLoop_frame env orgID vs []

theorem dryRunVariables_pure (env : DryRunSvcEnv) (orgID : ID) (vs : List variable') :
    ∀ c ∈ (Service.dryRunVariables env orgID vs).2.2, c.isMutating = false := by
  unfold Service.dryRunVariables
  exact dryRunVariablesLoop_pure env orgID vs []

theorem dryRunVariables_sorted (env : DryRunSvcEnv) (orgID : ID) (vs : List variable') :
    List.Pairwise (fun a b => a.Name ≤ b.Name) (Service.dryRunVariables env orgID vs).2.1 :=
  pairwise_names_of_sortB DiffVariable.Name _

theorem dryRunSecrets_calls (env : DryRunSvcEnv) (orgID : ID) (secrets : List String) :
    (Service.dryRunSecrets env orgID secrets).1 = []
      ∨ (Service.dryRunSecrets env orgID secrets).1 = [.getSecretKeys orgID] := by
  unfold Service.dryRunSecrets
  split
  · exact Or.inl rfl
  · split
    · exact Or.inr rfl
    · dsimp only
      split
      · exact Or.inr rfl
      · exact Or.inr rfl

theorem dryRunSecrets_pure (env : DryRunSvcEnv) (orgID : ID) (secrets : List String) :
    ∀ c ∈ (Service.dryRunSecrets env orgID secrets).1, c.isMutating = false := by
  intro c hc
  rcases dryRunSecrets_calls env orgID secrets with h | h
  · rw [h] at hc; simp at hc
  · rw [h] at hc; simp only [List.mem_singleton] at hc; rw [hc]; rfl

theorem dryRunBody_frame (env : DryRunSvcEnv) (orgID : ID) (pkg : Pkg)
    (parseErr : Option ValidationErr) :
    (Service.dryRunBody env orgID pkg parseErr).pkg.clearBindings = pkg.clearBindings := by
  unfold Service.dryRunBody
  dsimp only
  split
  · rfl
  · split
    · simp [Pkg.clearBindings, dryRunBuckets_frame, dryRunLabels_frame]
    · rename_i found heq
      have hok := (dryRunNotificationEndpoints_ok env orgID _ found heq).1
      split
      · simp [Pkg.clearBindings, dryRunBuckets_frame, dryRunLabels_frame,
          dryRunVariables_frame, dryRunLabelMappings_frame, hok]
      · simp [Pkg.clearBindings, dryRunBuckets_frame, dryRunLabels_frame,
          dryRunVariables_frame, dryRunLabelMappings_frame, hok]

theorem dryRunBody_pure (env : DryRunSvcEnv) (orgID : ID) (pkg : Pkg)
    (parseErr : Option ValidationErr) :
    ∀ c ∈ (Service.dryRunBody env orgID pkg parseErr).calls, c.isMutating = false := by
  unfold Service.dryRunBody
  dsimp only
  split
  · exact fun c hc => dryRunSecrets_pure env orgID pkg.secrets c hc
  · split
    · intro c hc
      simp only [List.mem_append] at hc
      rcases hc with ((hc | hc) | hc) | hc
      · exact dryRunSecrets_pure env orgID pkg.secrets c hc
      · exact dryRunBuckets_pure env orgID pkg.mBuckets c hc
      · exact dryRunLabels_pure env orgID _ c hc
      · exact dryRunNotificationEndpoints_pure env orgID _ c hc
    · split
      · intro c hc
        simp only [List.mem_append] at hc
        rcases hc with ((((hc | hc) | hc) | hc) | hc) | hc
        · exact dryRunSecrets_pure env orgID pkg.secrets c hc
        · exact dryRunBuckets_pure env orgID pkg.mBuckets c hc
        · exact dryRunLabels_pure env orgID _ c hc
        · exact dryRunNotificationEndpoints_pure env orgID _ c hc
        · exact dryRunVariables_pure env orgID _ c hc
        · exact dryRunLabelMappings_calls env _ c hc
      · intro c hc
        simp only [List.mem_append] at hc
        rcases hc with ((((hc | hc) | hc) | hc) | hc) | hc
        · exact dryRunSecrets_pure env orgID pkg.secrets c hc
        · exact dryRunBuckets_pure env orgID pkg.mBuckets c hc
        · exact dryRunLabels_pure env orgID _ c hc
        · exact dryRunNotificationEndpoints_pure env orgID _ c hc
        · exact dryRunVariables_pure env orgID _ c hc
        · exact dryRunLabelMappings_calls env _ c hc

theorem dryRunBody_verified (env : DryRunSvcEnv) (orgID : ID) (pkg : Pkg)
    (parseErr : Option ValidationErr) :
    (Service.dryRunBody env orgID pkg parseErr).err = none →
      (Service.dryRunBody env orgID pkg parseErr).pkg.isVerified = true := by
  unfold Service.dryRunBody
  dsimp only
  split
  · intro h; simp at h
  · split
    · intro h; simp at h
    · split
      · intro h; simp at h
      · intro _; rfl

theorem dryRunLabelMappings_sorted (env : DryRunSvcEnv) (pkg : Pkg)
    (h : (Service.dryRunLabelMappings env pkg).2 = none) :
    List.Pairwise mappingKeyLe (Service.dryRunLabelMappings env pkg).1.diffs := by
  unfold Service.dryRunLabelMappings at h ⊢
  rcases hr : dryRunLabelMappingsLoop env ⟨pkg.mLabels, [], []⟩ pkg.labelAssociations
    with ⟨st, o⟩
  rw [hr] at h
  cases o with
  | some m => simp at h
  | none => exact pairwise_mappingKeyLe_sortB st.diffs

theorem dryRunBody_diff (env : DryRunSvcEnv) (orgID : ID) (pkg : Pkg)
    (parseErr : Option ValidationErr) :
    List.Pairwise (fun a b => a.Name ≤ b.Name)
      (Service.dryRunBody env orgID pkg parseErr).diff.Buckets
    ∧ List.Pairwise (fun a b => a.Name ≤ b.Name)
      (Service.dryRunBody env orgID pkg parseErr).diff.Labels
    ∧ List.Pairwise (fun a b => a.Name ≤ b.Name)
      (Service.dryRunBody env orgID pkg parseErr).diff.NotificationEndpoints
    ∧ List.Pairwise (fun a b => a.Name ≤ b.Name)
      (Service.dryRunBody env orgID pkg parseErr).diff.Variables
    ∧ List.Pairwise mappingKeyLe (Service.dryRunBody env orgID pkg parseErr).diff.LabelMappings
    ∧ ((Service.dryRunBody env orgID pkg parseErr).diff.Dashboards
        = pkg.mDashboards.map newDiffDashboard
      ∨ (Service.dryRunBody env orgID pkg parseErr).diff.Dashboards = [])
    ∧ ((Service.dryRunBody env orgID pkg parseErr).diff.Telegrafs
        = pkg.mTelegrafs.map newDiffTelegraf
      ∨ (Service.dryRunBody env orgID pkg parseErr).diff.Telegrafs = []) := by
  unfold Service.dryRunBody
  dsimp only
  split
  · exact ⟨List.Pairwise.nil, List.Pairwise.nil, List.Pairwise.nil, List.Pairwise.nil,
      List.Pairwise.nil, Or.inr rfl, Or.inr rfl⟩
  · split
    · exact ⟨List.Pairwise.nil, List.Pairwise.nil, List.Pairwise.nil, List.Pairwise.nil,
        List.Pairwise.nil, Or.inr rfl, Or.inr rfl⟩
    · split
      · exact ⟨List.Pairwise.nil, List.Pairwise.nil, List.Pairwise.nil, List.Pairwise.nil,
          List.Pairwise.nil, Or.inr rfl, Or.inr rfl⟩
      · rename_i hm
        rename_i found heq _
        exact ⟨dryRunBuckets_sorted env orgID pkg.mBuckets,
          dryRunLabels_sorted env orgID _,
          (dryRunNotificationEndpoints_ok env orgID _ found heq).2,
          dryRunVariables_sorted env orgID _,
          dryRunLabelMappings_sorted env _ hm,
          Or.inl rfl, Or.inl rfl⟩

theorem DryRun_frame (env : DryRunSvcEnv) (orgID userID : ID) (pkg : Pkg) :
    (Service.DryRun env orgID userID pkg).pkg.clearBindings = pkg.clearBindings := by
  unfold Service.DryRun
  split
  · exact dryRunBody_frame env orgID pkg none
  · split
    · rfl
    · exact dryRunBody_frame env orgID pkg _
    · exact dryRunBody_frame env orgID pkg none

theorem DryRun_pure (env : DryRunSvcEnv) (orgID userID : ID) (pkg : Pkg) :
    ∀ c ∈ (Service.DryRun env orgID userID pkg).calls, c.isMutating = false := by
  unfold Service.DryRun
  split
  · exact dryRunBody_pure env orgID pkg none
  · split
    · intro c hc; simp at hc
    · exact dryRunBody_pure env orgID pkg _
    · exact dryRunBody_pure env orgID pkg none

theorem DryRun_verified (env : DryRunSvcEnv) (orgID userID : ID) (pkg : Pkg) :
    (Service.DryRun env orgID userID pkg).err = none →
      (Service.DryRun env orgID userID pkg).pkg.isVerified = true := by
  unfold Service.DryRun
  split
  · exact dryRunBody_verified env orgID pkg none
  · split
    · intro h; simp at h
    · exact dryRunBody_verified env orgID pkg _
    · exact dryRunBody_verified env orgID pkg none

theorem DryRun_diff_sections (env : DryRunSvcEnv) (orgID userID : ID) (pkg : Pkg) :
    List.Pairwise (fun a b => a.Name ≤ b.Name)
      (Service.DryRun env orgID userID pkg).diff.Buckets
    ∧ List.Pairwise (fun a b => a.Name ≤ b.Name)
      (Service.DryRun env orgID userID pkg).diff.Labels
    ∧ List.Pairwise (fun a b => a.Name ≤ b.Name)
      (Service.DryRun env orgID userID pkg).diff.NotificationEndpoints
    ∧ List.Pairwise (fun a b => a.Name ≤ b.Name)
      (Service.DryRun env orgID userID pkg).diff.Variables
    ∧ List.Pairwise mappingKeyLe (Service.DryRun env orgID userID pkg).diff.LabelMappings
    ∧ ((Service.DryRun env orgID userID pkg).diff.Dashboards
        = pkg.mDashboards.map newDiffDashboard
      ∨ (Service.DryRun env orgID userID pkg).diff.Dashboards = [])
    ∧ ((Service.DryRun env orgID userID pkg).diff.Telegrafs
        = pkg.mTelegrafs.map newDiffTelegraf
      ∨ (Service.DryRun env orgID userID pkg).diff.Telegrafs = []) := by
  unfold Service.DryRun
  split
  · exact dryRunBody_diff env orgID pkg none
  · split
    · exact ⟨List.Pairwise.nil, List.Pairwise.nil, List.Pairwise.nil, List.Pairwise.nil,
        List.Pairwise.nil, Or.inr rfl, Or.inr rfl⟩
    · exact dryRunBody_diff env orgID pkg _
    · exact dryRunBody_diff env orgID pkg none

/-! ## Apply-level helper lemmas -/

theorem Apply_rollbackRun_spec (denv : DryRunSvcEnv) (env : ApplySvcEnv)
    (rbEnv : String → Option String) (orgID userID : ID) (pkg : Pkg) :
    (Service.Apply denv env rbEnv orgID userID pkg).rollbackRun
      = (if (Service.Apply denv env rbEnv orgID userID pkg).result.isSome
          then (Service.Apply denv env rbEnv orgID userID pkg).recordedRollbacks
          else []) := by
  unfold Service.Apply
  dsimp only
  split
  · simp [ApplyOutcome.early]
  · split
    · simp [ApplyOutcome.early]
    · cases hr : (Service.applyRun env orgID userID
          (Service.applyPrep denv orgID userID pkg).pkg).2 with
      | none => simp [rollbackCoordinator.rollback]
      | some msgs => simp [rollbackCoordinator.rollback]

theorem Apply_result_rbEnv_irrelevant (denv : DryRunSvcEnv) (env : ApplySvcEnv)
    (orgID userID : ID) (pkg : Pkg) (rb1 rb2 : String → Option String) :
    (Service.Apply denv env rb1 orgID userID pkg).result
      = (Service.Apply denv env rb2 orgID userID pkg).result := by
  unfold Service.Apply
  dsimp only
  split
  · rfl
  · split
    · rfl
    · rfl

/-! ## Per-kind success/trace lemmas for the applier builders -/

theorem applyBucket_ok_calls (env : ApplySvcEnv) (b : bucket) (ib : InfluxBucket)
    (calls : List (PortCall × Bool)) (h : Service.applyBucket env b = (.ok ib, calls)) :
    calls.map Prod.snd = [true] := by
  unfold Service.applyBucket at h
  split at h
  · try dsimp only at h
    split at h
    · rw [Prod.mk.injEq] at h
      rw [← h.2]
      rfl
    · simp at h
  · try dsimp only at h
    split at h
    · rw [Prod.mk.injEq] at h
      rw [← h.2]
      rfl
    · simp at h

theorem applyLabel_ok_calls (env : ApplySvcEnv) (l : label) (il : InfluxLabel)
    (calls : List (PortCall × Bool)) (h : Service.applyLabel env l = (.ok il, calls)) :
    calls.map Prod.snd = [true] := by
  unfold Service.applyLabel at h
  split at h
  · try dsimp only at h
    split at h
    · rw [Prod.mk.injEq] at h
      rw [← h.2]
      rfl
    · simp at h
  · try dsimp only at h
    split at h
    · rw [Prod.mk.injEq] at h
      rw [← h.2]
      rfl
    · simp at h

theorem applyVariable_ok_calls (env : ApplySvcEnv) (v : variable') (iv : InfluxVariable)
    (calls : List (PortCall × Bool)) (h : Service.applyVariable env v = (.ok iv, calls)) :
    calls.map Prod.snd = [true] := by
  unfold Service.applyVariable at h
  split at h
  · try dsimp only at h
    split at h
    · rw [Prod.mk.injEq] at h
      rw [← h.2]
      rfl
    · simp at h
  · try dsimp only at h
    split at h
    · rw [Prod.mk.injEq] at h
      rw [← h.2]
      rfl
    · simp at h

theorem applyDashboard_ok_calls (env : ApplySvcEnv) (d : dashboard) (newID : ID)
    (calls : List (PortCall × Bool)) (h : Service.applyDashboard env d = (.ok newID, calls)) :
    calls.map Prod.snd = [true] := by
  unfold Service.applyDashboard at h
  split at h
  · rw [Prod.mk.injEq] at h
    rw [← h.2]
    rfl
  · simp at h

theorem applyNotificationEndpoint_ok_calls (env : ApplySvcEnv) (e : notificationEndpoint)
    (userID : ID) (upd : InfluxEndpoint) (calls : List (PortCall × Bool))
    (h : Service.applyNotificationEndpoint env e userID = (.ok upd, calls)) :
    calls.map Prod.snd = [true] := by
  unfold Service.applyNotificationEndpoint at h
  split at h
  · try dsimp only at h
    split at h
    · rw [Prod.mk.injEq] at h
      rw [← h.2]
      rfl
    · simp at h
  · try dsimp only at h
    split at h
    · rw [Prod.mk.injEq] at h
      rw [← h.2]
      rfl
    · simp at h

/-! ## Concrete fixtures for witnesses and counterexamples -/

/-- A bucket the dry run matched to an existing platform bucket whose fields
differ from the package's declared values. -/
def c1Bucket : bucket :=
  { name := "b1", Description := "new desc", RetentionRules := 3600,
    existing := some { id := 1, name := "b1", Description := "old desc", RetentionPeriod := 60 } }

/-- A label the dry run matched to an existing platform label. -/
def c1Label : label :=
  { name := "l1", properties := [("color", "new")],
    existing := some { id := 2, name := "l1", Properties := [("color", "old")] } }

/-- A variable the dry run matched to an existing platform variable. -/
def c1Var : variable' :=
  { name := "v1", Description := "new", Arguments := "newargs",
    existing := some { id := 3, name := "v1", Description := "old", Arguments := "oldargs" } }

/-- An apply environment in which every port call succeeds except bucket
creation. -/
def bucketFailEnv : ApplySvcEnv :=
  { ApplySvcEnv.allOK 9 with createBucket := fun _ => .error "boom" }

/-- A parsed, verified package holding one label and one bucket. -/
def failPkg : Pkg :=
  { isVerified := true,
    mLabels := [{ name := "l1", properties := [] }],
    mBuckets := [{ name := "b1", Description := "", RetentionRules := 0 }] }

/-- A package with one bucket carrying a label association, and that label. -/
def c6Pkg : Pkg :=
  { mBuckets := [{ name := "b1", Description := "", RetentionRules := 0, labels := ["l1"] }],
    mLabels := [{ name := "l1", properties := [] }] }

/-- A package whose dashboards are enumerated in descending name order. -/
def c8Pkg : Pkg :=
  { mDashboards := [{ name := "zz", Description := "", Charts := [] },
                    { name := "aa", Description := "", Charts := [] }] }

/-- An endpoint the dry run matched to an existing platform endpoint whose
fields differ from the package's declared values. -/
def c10Endpoint : notificationEndpoint :=
  { name := "e1", fields := "new fields",
    existing := some { id := 4, name := "e1", fields := "old fields" } }

/-- The full priority table the specification claims for CreatePkg's sort:
Label 1, Bucket 2, Variable 3, Dashboard 4, NotificationEndpoint 5,
Telegraf 6. -/
def claimPriority : Kind → Nat
  | .Label => 1
  | .Bucket => 2
  | .Variable => 3
  | .Dashboard => 4
  | .NotificationEndpoint => 5
  | .Telegraf => 6
  | _ => 7

/-! ## Claim theorems -/

/-- C1 (code_bug evidence): for an updated bucket, the rollback handler's
compensating update carries the package record's `Description` and
`RetentionRules.RP()` — which differ from the captured `existing` snapshot's
values — while the label and variable rollback handlers do build their
updates from the `existing` snapshot. -/
theorem rollbackBuckets_payload_divergence :
    ((Service.rollbackBuckets RollbackSvcEnv.allOK [c1Bucket]).1
        = [.updateBucket 1 { Description := "new desc", RetentionPeriod := 3600 }])
    ∧ ({ Description := "new desc", RetentionPeriod := 3600 } : BucketUpdate)
        ≠ { Description := "old desc", RetentionPeriod := 60 }
    ∧ ((Service.rollbackLabels RollbackSvcEnv.allOK [c1Label]).1
        = [.updateLabel 2 { Properties := [("color", "old")] }])
    ∧ ((Service.rollbackVariables RollbackSvcEnv.allOK [c1Var]).1
        = [.updateVariable 3 { Description := "old", Arguments := "oldargs" }]) := by
  decide

/-- C2: whenever Apply returns a non-nil error, the rollback invocation
sequence equals the recorded-rollbacker sequence — every recorded rollbacker
invoked exactly once, in order — and the error Apply returns is independent
of what the rollback handlers return (their failures are only logged). -/
theorem Apply_rollback_each_recorded_once_and_errors_only_logged
    (denv : DryRunSvcEnv) (env : ApplySvcEnv) (rbEnv : String → Option String)
    (orgID userID : ID) (pkg : Pkg)
    (h : (Service.Apply denv env rbEnv orgID userID pkg).result.isSome = true) :
    (Service.Apply denv env rbEnv orgID userID pkg).rollbackRun
      = (Service.Apply denv env rbEnv orgID userID pkg).recordedRollbacks
    ∧ ∀ rbEnv2 : String → Option String,
        (Service.Apply denv env rbEnv2 orgID userID pkg).result
          = (Service.Apply denv env rbEnv orgID userID pkg).result := by
  refine ⟨?_, fun rb2 => Apply_result_rbEnv_irrelevant denv env orgID userID pkg rb2 rbEnv⟩
  rw [Apply_rollbackRun_spec, if_pos h]

/-- Witness for C2 at a concrete failing apply: one label creation succeeds,
the bucket creation fails, and the rollback run covers exactly the six
recorded rollbackers. -/
theorem Apply_rollback_each_recorded_once_witness :
    (Service.Apply DryRunSvcEnv.empty bucketFailEnv (fun _ => none) 1 2 failPkg).rollbackRun
      = (Service.Apply DryRunSvcEnv.empty bucketFailEnv (fun _ => none) 1 2
          failPkg).recordedRollbacks :=
  (Apply_rollback_each_recorded_once_and_errors_only_logged DryRunSvcEnv.empty bucketFailEnv
    (fun _ => none) 1 2 failPkg (by decide)).1

theorem Apply_main (denv : DryRunSvcEnv) (env : ApplySvcEnv)
    (rbEnv : String → Option String) (orgID userID : ID) (pkg : Pkg)
    (h1 : pkg.isParsed = true) (h2 : pkg.isVerified = true) :
    Service.Apply denv env rbEnv orgID userID pkg
      = (let run := Service.applyRun env orgID userID pkg
         let result : Option ApplyErr := run.2.map .aggregated
         let rb := rollbackCoordinator.rollback rbEnv run.1.rollbacks result
         { invocations := run.1.invocations, recordedRollbacks := run.1.rollbacks,
           result := result, rollbackRun := rb.1, rollbackLogged := rb.2 }) := by
  unfold Service.Apply
  rw [if_neg (by simp [h1])]
  have hprep : Service.applyPrep denv orgID userID pkg = ⟨pkg, Diff.empty, none, []⟩ := by
    unfold Service.applyPrep
    rw [if_pos h2]
  rw [hprep]

/-- C3: Apply's applier groups are, for every package, exactly labels first,
then variables, buckets, dashboards, notification endpoints and telegrafs,
then label mappings; and the create invocations of a (parsed, verified)
package's Apply are exactly those of the groups up to and including the first
group with a non-nil aggregated error — no later group's create function is
ever invoked. -/
theorem Apply_groups_fixed_order_and_stop_on_error
    (denv : DryRunSvcEnv) (env : ApplySvcEnv) (rbEnv : String → Option String)
    (orgID userID : ID) (pkg : Pkg)
    (h1 : pkg.isParsed = true) (h2 : pkg.isVerified = true) :
    (∀ q : Pkg, (Service.applyGroups env orgID userID q).map (fun g => g.map applier.resource)
        = [["label"],
           ["variable", "bucket", "dashboard", "notification_endpoints", "telegrafs"],
           ["label_mapping"]])
    ∧ (Service.Apply denv env rbEnv orgID userID pkg).invocations
        = ((Service.applyGroups env orgID userID pkg).take
            (firstFailIdx (Service.applyGroups env orgID userID pkg) + 1)).flatMap groupInvs := by
  constructor
  · intro q
    rfl
  · rw [Apply_main denv env rbEnv orgID userID pkg h1 h2]
    dsimp only
    unfold Service.applyRun
    rw [runGroups_eq]
    simp

/-- Witness for C3 at the concrete failing apply: group two (the primaries)
fails, so the invocation trace covers groups one and two only. -/
theorem Apply_groups_fixed_order_witness :
    (Service.Apply DryRunSvcEnv.empty bucketFailEnv (fun _ => none) 1 2 failPkg).invocations
      = ((Service.applyGroups bucketFailEnv 1 2 failPkg).take
          (firstFailIdx (Service.applyGroups bucketFailEnv 1 2 failPkg) + 1)).flatMap
          groupInvs :=
  (Apply_groups_fixed_order_and_stop_on_error DryRunSvcEnv.empty bucketFailEnv
    (fun _ => none) 1 2 failPkg rfl rfl).2

/-- C4 counterexample: a concrete failing apply records the rollbackers
label, variable, bucket, dashboard, notification_endpoints, telegrafs — and
invokes them in that same insertion order, not in reverse. -/
theorem Apply_rollback_reverse_order_counterexample :
    (Service.Apply DryRunSvcEnv.empty bucketFailEnv (fun _ => none) 1 2
        failPkg).result.isSome = true
    ∧ (Service.Apply DryRunSvcEnv.empty bucketFailEnv (fun _ => none) 1 2
        failPkg).recordedRollbacks
        = ["label", "variable", "bucket", "dashboard", "notification_endpoints", "telegrafs"]
    ∧ (Service.Apply DryRunSvcEnv.empty bucketFailEnv (fun _ => none) 1 2 failPkg).rollbackRun
        ≠ (Service.Apply DryRunSvcEnv.empty bucketFailEnv (fun _ => none) 1 2
            failPkg).recordedRollbacks.reverse := by
  decide

/-- C4 amended: when Apply fails, the recorded rollback handlers are invoked
serially in insertion order — the rollbacker recorded first is invoked first;
no rollback runs on success. -/
theorem Apply_rollback_insertion_order (denv : DryRunSvcEnv) (env : ApplySvcEnv)
    (rbEnv : String → Option String) (orgID userID : ID) (pkg : Pkg) :
    (Service.Apply denv env rbEnv orgID userID pkg).rollbackRun
      = (if (Service.Apply denv env rbEnv orgID userID pkg).result.isSome
          then (Service.Apply denv env rbEnv orgID userID pkg).recordedRollbacks
          else []) :=
  Apply_rollbackRun_spec denv env rbEnv orgID userID pkg

/-- C5: for every applier's per-item create body, an item is appended to the
rollback list only when its single create/update port call succeeded — the
traced call list is exactly one successful call — and a label mapping marked
`exists` by the dry run is skipped with no port call, no error and no
rollback entry. -/
theorem appliers_rollback_only_on_success (env : ApplySvcEnv) (orgID userID : ID) :
    (∀ b : bucket, (Service.applyBucketsStep env orgID b).rollbackAdd.isSome = true →
      (Service.applyBucketsStep env orgID b).calls.map Prod.snd = [true])
    ∧ (∀ l : label, (Service.applyLabelsStep env orgID l).rollbackAdd.isSome = true →
      (Service.applyLabelsStep env orgID l).calls.map Prod.snd = [true])
    ∧ (∀ v : variable', (Service.applyVariablesStep env orgID v).rollbackAdd.isSome = true →
      (Service.applyVariablesStep env orgID v).calls.map Prod.snd = [true])
    ∧ (∀ d : dashboard, (Service.applyDashboardsStep env orgID d).rollbackAdd.isSome = true →
      (Service.applyDashboardsStep env orgID d).calls.map Prod.snd = [true])
    ∧ (∀ e : notificationEndpoint,
      (Service.applyNotificationEndpointsStep env orgID userID e).rollbackAdd.isSome = true →
      (Service.applyNotificationEndpointsStep env orgID userID e).calls.map Prod.snd = [true])
    ∧ (∀ t : telegraf, (Service.applyTelegrafsStep env orgID userID t).rollbackAdd.isSome = true →
      (Service.applyTelegrafsStep env orgID userID t).calls.map Prod.snd = [true])
    ∧ (∀ m : SummaryLabelMapping,
      (Service.applyLabelMappingsStep env m).rollbackAdd.isSome = true →
      (Service.applyLabelMappingsStep env m).calls.map Prod.snd = [true])
    ∧ (∀ m : SummaryLabelMapping, m.exists_ = true →
      Service.applyLabelMappingsStep env m = ⟨none, none, []⟩) := by
  refine ⟨?_, ?_, ?_, ?_, ?_, ?_, ?_, ?_⟩
  · intro b
    unfold Service.applyBucketsStep
    dsimp only
    split
    · intro h; simp at h
    · split
      · intro h; simp at h
      · rename_i ib calls heq
        exact fun _ => applyBucket_ok_calls env _ ib calls heq
  · intro l
    unfold Service.applyLabelsStep
    dsimp only
    split
    · intro h; simp at h
    · split
      · intro h; simp at h
      · rename_i il calls heq
        exact fun _ => applyLabel_ok_calls env _ il calls heq
  · intro v
    unfold Service.applyVariablesStep
    dsimp only
    split
    · intro h; simp at h
    · split
      · intro h; simp at h
      · rename_i iv calls heq
        exact fun _ => applyVariable_ok_calls env _ iv calls heq
  · intro d
    unfold Service.applyDashboardsStep
    dsimp only
    split
    · intro h; simp at h
    · rename_i newID calls heq
      exact fun _ => applyDashboard_ok_calls env _ newID calls heq
  · intro e
    unfold Service.applyNotificationEndpointsStep
    dsimp only
    split
    · intro h; simp at h
    · rename_i upd calls heq
      exact fun _ => applyNotificationEndpoint_ok_calls env _ userID upd calls heq
  · intro t
    unfold Service.applyTelegrafsStep
    dsimp only
    split
    · intro h; simp at h
    · intro _; rfl
  · intro m
    unfold Service.applyLabelMappingsStep
    split
    · intro h; simp at h
    · dsimp only
      split
      · intro h; simp at h
      · intro _; rfl
  · intro m hm
    unfold Service.applyLabelMappingsStep
    rw [if_pos hm]

/-- Witness for C5 at concrete inputs: a fresh bucket's create succeeds and
is traced as one successful call, and an already-existing label mapping is
skipped entirely. -/
theorem appliers_rollback_only_on_success_witness :
    (Service.applyBucketsStep (ApplySvcEnv.allOK 9) 1
        { name := "b1", Description := "", RetentionRules := 0 }).calls.map Prod.snd = [true]
    ∧ Service.applyLabelMappingsStep (ApplySvcEnv.allOK 9)
        { exists_ := true, LabelID := 1, ResourceID := 2, ResourceType := "buckets",
          LabelName := "l1", ResourceName := "b1" } = ⟨none, none, []⟩ :=
  ⟨(appliers_rollback_only_on_success (ApplySvcEnv.allOK 9) 1 2).1
      { name := "b1", Description := "", RetentionRules := 0 } (by decide),
   (appliers_rollback_only_on_success (ApplySvcEnv.allOK 9) 1 2).2.2.2.2.2.2.2
      { exists_ := true, LabelID := 1, ResourceID := 2, ResourceType := "buckets",
        LabelName := "l1", ResourceName := "b1" } rfl⟩

/-- C6 counterexample: on a package holding one bucket with a label
association, the dry run changes more state than the `existing` slots and
`isVerified` — it records the label↔bucket mapping on the package label via
setMapping, so erasing only the existing slots and the flag does not recover
the input package. -/
theorem DryRun_extra_state_change_counterexample :
    (Service.DryRun DryRunSvcEnv.empty 1 2 c6Pkg).pkg.clearExistingAndVerified
      ≠ c6Pkg.clearExistingAndVerified := by
  decide

/-- C6 amended: DryRun issues zero mutating port calls; its state changes are
exactly the `existing` slots, the label mappings recorded by setMapping, and
`isVerified` (erasing those three recovers the input package); and a dry run
returning no error has set `isVerified` to true. -/
theorem DryRun_purity_and_state_delta (env : DryRunSvcEnv) (orgID userID : ID) (pkg : Pkg) :
    (∀ c ∈ (Service.DryRun env orgID userID pkg).calls, c.isMutating = false)
    ∧ (Service.DryRun env orgID userID pkg).pkg.clearBindings = pkg.clearBindings
    ∧ ((Service.DryRun env orgID userID pkg).err = none →
        (Service.DryRun env orgID userID pkg).pkg.isVerified = true) :=
  ⟨DryRun_pure env orgID userID pkg, DryRun_frame env orgID userID pkg,
   DryRun_verified env orgID userID pkg⟩

/-- Witness for C6 at a concrete package: the traced bucket lookup is a read,
the state delta erases to the input, and the error-free run is verified. -/
theorem DryRun_purity_and_state_delta_witness :
    (PortCall.findBucketByName 1 "b1").isMutating = false
    ∧ (Service.DryRun DryRunSvcEnv.empty 1 2 c6Pkg).pkg.clearBindings = c6Pkg.clearBindings
    ∧ (Service.DryRun DryRunSvcEnv.empty 1 2 c6Pkg).pkg.isVerified = true :=
  ⟨(DryRun_purity_and_state_delta DryRunSvcEnv.empty 1 2 c6Pkg).1
      (PortCall.findBucketByName 1 "b1") (by decide),
   (DryRun_purity_and_state_delta DryRunSvcEnv.empty 1 2 c6Pkg).2.1,
   (DryRun_purity_and_state_delta DryRunSvcEnv.empty 1 2 c6Pkg).2.2 (by decide)⟩

/-- C8 counterexample: the Dashboards section of the diff is emitted in
package enumeration order with no sort — a package enumerating dashboards
"zz" then "aa" yields a Dashboards section not sorted by Name. -/
theorem DryRun_dashboards_unsorted_counterexample :
    ¬ List.Pairwise (fun a b => a.Name ≤ b.Name)
      (Service.DryRun DryRunSvcEnv.empty 1 2 c8Pkg).diff.Dashboards := by
  have hd : (Service.DryRun DryRunSvcEnv.empty 1 2 c8Pkg).diff.Dashboards
      = [{ Name := "zz", Description := "" }, { Name := "aa", Description := "" }] := by
    decide
  rw [hd]
  intro h
  have hle := (List.pairwise_cons.mp h).1 _ (List.mem_cons_self _ _)
  revert hle
  simp
  decide

/-- C8 amended: the Buckets, Labels, NotificationEndpoints and Variables
sections of DryRun's diff are sorted ascending by Name, the LabelMappings
section is sorted ascending by (ResourceType, ResourceName, LabelName), and
the Dashboards and Telegrafs sections keep the package's enumeration order
(or are empty on an aborted dry run). -/
theorem DryRun_diff_ordering (env : DryRunSvcEnv) (orgID userID : ID) (pkg : Pkg) :
    List.Pairwise (fun a b => a.Name ≤ b.Name)
      (Service.DryRun env orgID userID pkg).diff.Buckets
    ∧ List.Pairwise (fun a b => a.Name ≤ b.Name)
      (Service.DryRun env orgID userID pkg).diff.Labels
    ∧ List.Pairwise (fun a b => a.Name ≤ b.Name)
      (Service.DryRun env orgID userID pkg).diff.NotificationEndpoints
    ∧ List.Pairwise (fun a b => a.Name ≤ b.Name)
      (Service.DryRun env orgID userID pkg).diff.Variables
    ∧ List.Pairwise mappingKeyLe (Service.DryRun env orgID userID pkg).diff.LabelMappings
    ∧ ((Service.DryRun env orgID userID pkg).diff.Dashboards
        = pkg.mDashboards.map newDiffDashboard
      ∨ (Service.DryRun env orgID userID pkg).diff.Dashboards = [])
    ∧ ((Service.DryRun env orgID userID pkg).diff.Telegrafs
        = pkg.mTelegrafs.map newDiffTelegraf
      ∨ (Service.DryRun env orgID userID pkg).diff.Telegrafs = []) :=
  DryRun_diff_sections env orgID userID pkg

/-- C9 counterexample: sorting a Label and a NotificationEndpoint resource
places the NotificationEndpoint first — kinds absent from the priority map
read priority 0 — so the output violates the claimed full ordering
Label < Bucket < Variable < Dashboard < NotificationEndpoint < Telegraf. -/
theorem createPkg_sort_unmapped_kinds_counterexample :
    ¬ List.Pairwise (fun a b : Resource =>
        claimPriority a.kind < claimPriority b.kind ∨ (a.kind = b.kind ∧ a.name ≤ b.name))
      (Service.createPkgSortResources [⟨.Label, "a"⟩, ⟨.NotificationEndpoint, "n"⟩]) := by
  decide

/-- C9 amended: CreatePkg's sort orders adjacent resources by the source
comparator — name ascending within a kind, mapped priority across kinds —
where the priority map reads Label 1, Bucket 2, Variable 3, Dashboard 4 and
0 for every other kind (NotificationEndpoint and Telegraf included, which
therefore sort before the four mapped kinds). -/
theorem createPkg_sort_comparator_spec :
    (∀ rs : List Resource, List.Chain' (fun a b => (!createPkgLess b a) = true)
        (Service.createPkgSortResources rs))
    ∧ kindPriorities .Label = 1 ∧ kindPriorities .Bucket = 2
    ∧ kindPriorities .Variable = 3 ∧ kindPriorities .Dashboard = 4
    ∧ kindPriorities .NotificationEndpoint = 0 ∧ kindPriorities .Telegraf = 0
    ∧ (∀ a b : Resource, a.kind ≠ b.kind →
        createPkgLess a b = decide (kindPriorities a.kind < kindPriorities b.kind)) := by
  refine ⟨?_, rfl, rfl, rfl, rfl, rfl, rfl, ?_⟩
  · intro rs
    exact chain'_insertionSortB _ createPkgLe_total rs
  · intro a b h
    unfold createPkgLess
    rw [if_neg h]

/-- Witness for the amended C9 at concrete resources: the sorted pair is
comparator-ordered, and across different kinds the comparator is exactly the
mapped-priority comparison. -/
theorem createPkg_sort_comparator_spec_witness :
    List.Chain' (fun a b => (!createPkgLess b a) = true)
      (Service.createPkgSortResources [⟨.Label, "a"⟩, ⟨.NotificationEndpoint, "n"⟩])
    ∧ createPkgLess ⟨.NotificationEndpoint, "n"⟩ ⟨.Label, "a"⟩
        = decide (kindPriorities .NotificationEndpoint < kindPriorities .Label) :=
  ⟨createPkg_sort_comparator_spec.1 [⟨.Label, "a"⟩, ⟨.NotificationEndpoint, "n"⟩],
   createPkg_sort_comparator_spec.2.2.2.2.2.2.2 ⟨.NotificationEndpoint, "n"⟩ ⟨.Label, "a"⟩
     (by decide)⟩

/-- C10: when the dry run bound an existing platform endpoint, the apply
update branch's single port call carries that `existing` snapshot as its
payload — not the package's declared endpoint — so a snapshot differing from
the declared values is passed unchanged. -/
theorem applyNotificationEndpoint_update_uses_existing_snapshot (env : ApplySvcEnv)
    (e : notificationEndpoint) (userID : ID) (ex : InfluxEndpoint)
    (h : e.existing = some ex) :
    (Service.applyNotificationEndpoint env e userID).2.map Prod.fst
      = [.updateNotificationEndpoint e.ID' ex userID]
    ∧ (ex ≠ e.summarize →
        (Service.applyNotificationEndpoint env e userID).2.map Prod.fst
          ≠ [.updateNotificationEndpoint e.ID' e.summarize userID]) := by
  have hred : Service.applyNotificationEndpoint env e userID
      = match env.updateNotificationEndpoint e.ID' ex userID with
        | .ok upd => (.ok upd, [(.updateNotificationEndpoint e.ID' ex userID, true)])
        | .error m => (.error m, [(.updateNotificationEndpoint e.ID' ex userID, false)]) := by
    unfold Service.applyNotificationEndpoint
    rw [h]
  rw [hred]
  cases henv : env.updateNotificationEndpoint e.ID' ex userID with
  | ok upd =>
    refine ⟨rfl, fun hne hEq => hne ?_⟩
    simp only [List.map_cons, List.map_nil, List.cons.injEq, and_true] at hEq
    injection hEq with h1 h2 h3
  | error m =>
    refine ⟨rfl, fun hne hEq => hne ?_⟩
    simp only [List.map_cons, List.map_nil, List.cons.injEq, and_true] at hEq
    injection hEq with h1 h2 h3

/-- Witness for C10 at a concrete endpoint whose snapshot differs from the
declared fields. -/
theorem applyNotificationEndpoint_update_witness :
    (Service.applyNotificationEndpoint (ApplySvcEnv.allOK 9) c10Endpoint 7).2.map Prod.fst
      = [.updateNotificationEndpoint c10Endpoint.ID'
          { id := 4, name := "e1", fields := "old fields" } 7]
    ∧ (Service.applyNotificationEndpoint (ApplySvcEnv.allOK 9) c10Endpoint 7).2.map Prod.fst
      ≠ [.updateNotificationEndpoint c10Endpoint.ID' c10Endpoint.summarize 7] :=
  ⟨(applyNotificationEndpoint_update_uses_existing_snapshot (ApplySvcEnv.allOK 9)
      c10Endpoint 7 _ rfl).1,
   (applyNotificationEndpoint_update_uses_existing_snapshot (ApplySvcEnv.allOK 9)
      c10Endpoint 7 _ rfl).2 (by decide)⟩

end Pkger
